import Mathlib

/-!
# The MPPE payroll parser (`mppe/parser.go`)

A shallow embedding of the parser and the properties of its specification.

* A Go `string` is a sequence of bytes; `len` and slicing count bytes.
* A function that may hit a Go runtime panic (index or slice bound out of range) returns
  an `Option` (`none` is the panic) or a `Res` (`Res.panic`).
* `strconv.ParseFloat`, `excelize.OpenFile`, `(*excelize.File).GetRows` and the `%q` verb of
  `fmt` are not code of this package: they are the fields of `Lib`, and every
  theorem holds for every choice of them. `float64` is the type parameter `F`.
* The file system is read-only during a run: opening a path twice gives the same workbook.
-/

set_option autoImplicit false
set_option maxRecDepth 8000

namespace Mppe

/-- A Go string: its bytes, each a natural number below 256. -/
abbrev GoString := List Nat

/-- The bytes (UTF-8) of a string literal of the source. -/
def str (s : String) : GoString := s.toUTF8.data.toList.map UInt8.toNat

/-- The outcome of a Go function that returns `(value, error)` and may panic. -/
inductive Res (α : Type) where
  /-- returned the value with a nil error -/
  | ok (a : α)
  /-- returned a non-nil error whose text is `e` -/
  | err (e : GoString)
  /-- a runtime panic -/
  | panic
  deriving DecidableEq

/-- What this package uses from `strconv`, `excelize` and `fmt`. -/
structure Lib (F X : Type) where
  /-- The call `strconv.ParseFloat(s, 64)`: the value, or the text of the error. -/
  ParseFloat : GoString → Except GoString F
  /-- The call `excelize.OpenFile(path)`: the workbook, or the text of the error. -/
  OpenFile : GoString → Except GoString X
  /-- The call `file.GetRows(sheet)`: the rows of the sheet of that name. -/
  GetRows : X → GoString → List (List GoString)
  /-- The verb `%q` of `fmt.Errorf` on an error whose text is given. -/
  quote : GoString → GoString

/-! ## `storage` records, with the fields this package sets

A pointer field is an `Option`: `nil` is `none`. -/

/-- The pointee of `IncomeDetails.Other`; this package only ever stores `nil` there. -/
structure Funds where
  deriving DecidableEq

/-- The record `storage.Perks`. -/
structure Perks (F : Type) where
  Total : F
  deriving DecidableEq

/-- The record `storage.IncomeDetails`. -/
structure IncomeDetails (F : Type) where
  Total : F
  Wage : Option F
  Perks : Option (Perks F)
  Other : Option Funds
  deriving DecidableEq

/-- The record `storage.Discount`. -/
structure Discount (F : Type) where
  Total : F
  CeilRetention : Option F
  IncomeTax : Option F
  PrevContribution : Option F
  deriving DecidableEq

/-- The record `storage.Employee` (`Type_` is its field `Type`). -/
structure Employee (F : Type) where
  Reg : GoString
  Name : GoString
  Role : GoString
  Type_ : GoString
  Workplace : GoString
  Active : Bool
  Income : Option (IncomeDetails F)
  Discounts : Option (Discount F)
  deriving DecidableEq

/-! ## Constants -/

/-- page name to process -/
def sheetName : GoString := str "Sheet"
/-- index of unique register code on the row -/
def registerCodeIndex : Nat := 0
/-- index of name on the row -/
def nameIndex : Nat := 1
/-- index of role on the row -/
def roleIndex : Nat := 2
/-- index of total discount -/
def totalDiscountIndex : Nat := 14
/-- index of ceil retention -/
def ceilRetentionIndex : Nat := 13
/-- index of income tax -/
def incomeTaxIndex : Nat := 12
/-- index of prev contribution -/
def prevContributionIndex : Nat := 11
/-- index of income details -/
def totalIncomeDetailsIndex : Nat := 10
/-- index of wage -/
def wageIndex : Nat := 4
/-- index of total perks -/
def totalPerkIndex : Nat := 6

variable {F X : Type}

/-! ## The functions of `parser.go` -/

/-- The step `v, err := strconv.ParseFloat(row[index], 64); if err != nil { return nil,
fmt.Errorf(what + " for document %s: %q", documentIdentification, err) }` that the three
getters repeat: indexing the row may panic, a failed coercion returns the formatted error. -/
def parseCell (lib : Lib F X) (row : List GoString) (index : Nat) (what : GoString)
    (documentIdentification : GoString) : Res F :=
  match row[index]? with
  | none => .panic
  | some cell =>
    match lib.ParseFloat cell with
    | .error err =>
      .err (what ++ str " for document " ++ documentIdentification ++ str ": " ++ lib.quote err)
    | .ok v => .ok v

/-- it returns the total discounts sumary -/
def getDiscounts (lib : Lib F X) (row : List GoString) (documentIdentification : GoString) :
    Res (Discount F) :=
  match parseCell lib row totalDiscountIndex
      (str "error on parsing total discount from string to float64") documentIdentification with
  | .panic => .panic
  | .err e => .err e
  | .ok totalDiscount =>
  match parseCell lib row ceilRetentionIndex
      (str "error on parsing ceil retention from string to float64") documentIdentification with
  | .panic => .panic
  | .err e => .err e
  | .ok ceilRetention =>
  match parseCell lib row incomeTaxIndex
      (str "error on parsing income tax from string to float64") documentIdentification with
  | .panic => .panic
  | .err e => .err e
  | .ok incomeTax =>
  match parseCell lib row prevContributionIndex
      (str "error on parsing prev contribution from string to float64")
      documentIdentification with
  | .panic => .panic
  | .err e => .err e
  | .ok prevContribution =>
    .ok { Total := totalDiscount
          CeilRetention := some ceilRetention
          IncomeTax := some incomeTax
          PrevContribution := some prevContribution }

/-- it retrieves employee perks -/
def getPerks (lib : Lib F X) (row : List GoString) (documentIdentification : GoString) :
    Res (Perks F) :=
  match parseCell lib row totalPerkIndex
      (str "error on parsing total of perks from string to float64") documentIdentification with
  | .panic => .panic
  | .err e => .err e
  | .ok total => .ok { Total := total }

/-- it returns the incomes sumary -/
def getIncome (lib : Lib F X) (row : List GoString) (documentIdentification : GoString) :
    Res (IncomeDetails F) :=
  match parseCell lib row totalIncomeDetailsIndex
      (str "error on parsing total of income details from string to float64")
      documentIdentification with
  | .panic => .panic
  | .err e => .err e
  | .ok total =>
  match parseCell lib row wageIndex
      (str "error on parsing wage of income details from string to float64")
      documentIdentification with
  | .panic => .panic
  | .err e => .err e
  | .ok wage =>
  match getPerks lib row documentIdentification with
  | .panic => .panic
  | .err e => .err e
  | .ok perks =>
    .ok { Total := total, Wage := some wage, Perks := some perks, Other := none }

/-- it returns the employee type -/
def getType (documentIdentification : GoString) : GoString :=
  if documentIdentification = str "proventos-de-todos-os-membros-inativos" then
    str "membro"
  else if documentIdentification = str "proventos-de-todos-os-servidores-inativos" then
    str "servidor"
  else if documentIdentification = str "remuneracao-de-todos-os-membros-ativos" then
    str "membro"
  else if documentIdentification = str "remuneracao-de-todos-os-servidores-atuvos" then
    str "servidor"
  else if documentIdentification = str "valores-percebidos-por-todos-os-colaboradores" then
    str "colaborador"
  else if documentIdentification = str "valores-percebidos-por-todos-os-pensionistas" then
    str "pensionista"
  else
    str "indefinido"

/-- it checks if the document is of active members or not -/
def isActive (documentIdentification : GoString) : Bool :=
  if documentIdentification = str "proventos-de-todos-os-membros-inativos" then
    false
  else if documentIdentification = str "proventos-de-todos-os-servidores-inativos" then
    false
  else if documentIdentification = str "verbas-referentes-a-exercicios-anteriores" then
    false
  else if documentIdentification
      = str "verbas-indenizatorias-e-outras-remuneracoes-temporarias" then
    false
  else if documentIdentification = str "valores-percebidos-por-todos-os-pensionistas" then
    false
  else
    true

/-- it cuts off month, year and extension from name to get file name. The slice
`fileName[0 : fileSize-13]` panics when `fileSize - 13` is negative. -/
def getFileDocumentation (fileName : GoString) : Option GoString :=
  let fileSize : Int := fileName.length
  if fileSize - 13 < 0 then none else some (fileName.take (fileSize - 13).toNat)

/-- The body of the row loop of `Parse` for a row that is not skipped (lines 62 to 79):
the employee built from the row. -/
def parseRow (lib : Lib F X) (row : List GoString) (documentIdentification : GoString) :
    Res (Employee F) :=
  match getDiscounts lib row documentIdentification with
  | .panic => .panic
  | .err e => .err e
  | .ok discounts =>
  match getIncome lib row documentIdentification with
  | .panic => .panic
  | .err e => .err e
  | .ok incomeDetails =>
  match row[registerCodeIndex]?, row[nameIndex]?, row[roleIndex]? with
  | some reg, some name, some role =>
    .ok { Reg := reg
          Name := name
          Role := role
          Type_ := getType documentIdentification
          Workplace := str "mppe"
          Active := isActive documentIdentification
          Income := some incomeDetails
          Discounts := some discounts }
  | _, _, _ => .panic

/-- The loop `for index, row := range rows` of `Parse`, from the row of index `index` on,
with the employees appended so far. `Res.err e` is the early `return nil, e`. -/
def rowLoop (lib : Lib F X) (documentIdentification : GoString) (numberOfRows : Nat) :
    Nat → List (List GoString) → List (Employee F) → Res (List (Employee F))
  | _, [], employees => .ok employees
  | index, row :: rest, employees =>
    if index = 0 ∨ index = 1 ∨ index = 2 ∨ (index : Int) = (numberOfRows : Int) - 1 then
      rowLoop lib documentIdentification numberOfRows (index + 1) rest employees
    else
      match parseRow lib row documentIdentification with
      | .panic => .panic
      | .err e => .err e
      | .ok employee =>
        rowLoop lib documentIdentification numberOfRows (index + 1) rest (employees ++ [employee])

/-- The loop `for _, path := range paths` of `Parse` with the employees appended so far.
The result is the pair `(employees, err)` that `Parse` returns, or `none` for a panic. -/
def fileLoop (lib : Lib F X) :
    List GoString → List (Employee F) → Option (List (Employee F) × Option GoString)
  | [], employees => some (employees, none)
  | path :: rest, employees =>
    match getFileDocumentation path with
    | none => none
    | some documentIdentification =>
      match lib.OpenFile path with
      | .error err =>
        some ([], some (str "error opening document " ++ documentIdentification
          ++ str " for parse: " ++ lib.quote err))
      | .ok file =>
        let rows := lib.GetRows file sheetName
        let numberOfRows := rows.length
        match rowLoop lib documentIdentification numberOfRows 0 rows employees with
        | .panic => none
        | .err e => some ([], some e)
        | .ok employees => fileLoop lib rest employees

/-- Parse parses the xlsx tables -/
def Parse (lib : Lib F X) (paths : List GoString) :
    Option (List (Employee F) × Option GoString) :=
  fileLoop lib paths []

/-! ## The row filter and the per-file view of the specification -/

/-- The data rows of a sheet in the words of the specification: every row but the first
three and the last one, in sheet order. -/
def dataRows (rows : List (List GoString)) : List (List GoString) :=
  rows.dropLast.drop 3

/-- The employees of a list of rows, built one row after the other and appended to
`employees`; the first row that does not give an employee ends it. -/
def extractRows (lib : Lib F X) (documentIdentification : GoString) :
    List (List GoString) → List (Employee F) → Res (List (Employee F))
  | [], employees => .ok employees
  | row :: rest, employees =>
    match parseRow lib row documentIdentification with
    | .panic => .panic
    | .err e => .err e
    | .ok employee => extractRows lib documentIdentification rest (employees ++ [employee])

/-- One file on its own: its name is cut, it is opened, and its data rows are extracted. -/
def parseFile (lib : Lib F X) (path : GoString) : Res (List (Employee F)) :=
  match getFileDocumentation path with
  | none => .panic
  | some documentIdentification =>
    match lib.OpenFile path with
    | .error err =>
      .err (str "error opening document " ++ documentIdentification
        ++ str " for parse: " ++ lib.quote err)
    | .ok file =>
      extractRows lib documentIdentification (dataRows (lib.GetRows file sheetName)) []

/-! ## The tables and the base name of the specification -/

/-- The six tokens that the employment-type table maps to member, servant, collaborator or
pensioner. -/
def typeTokens : List GoString :=
  [str "proventos-de-todos-os-membros-inativos",
   str "proventos-de-todos-os-servidores-inativos",
   str "remuneracao-de-todos-os-membros-ativos",
   str "remuneracao-de-todos-os-servidores-atuvos",
   str "valores-percebidos-por-todos-os-colaboradores",
   str "valores-percebidos-por-todos-os-pensionistas"]

/-- The five tokens that the active-status table maps to false. -/
def inactiveTokens : List GoString :=
  [str "proventos-de-todos-os-membros-inativos",
   str "proventos-de-todos-os-servidores-inativos",
   str "verbas-referentes-a-exercicios-anteriores",
   str "verbas-indenizatorias-e-outras-remuneracoes-temporarias",
   str "valores-percebidos-por-todos-os-pensionistas"]

/-- The base name of a path: what follows its last slash (byte 47), the whole path when it
has none. -/
def baseName : GoString → GoString
  | [] => []
  | b :: rest => if 47 ∈ rest then baseName rest else if b = 47 then rest else b :: rest

/-- The classification token in the words of the specification: the base name of the file
with its last 13 characters removed. -/
def tokenOfBaseName (path : GoString) : GoString :=
  (baseName path).take ((baseName path).length - 13)

/-- The classification of a file in the words of the specification, `classify(filePath)`:
the token of the path mapped by the two tables, or `none` when the cut of the name panics. -/
def classify (filePath : GoString) : Option (GoString × Bool) :=
  match getFileDocumentation filePath with
  | none => none
  | some documentIdentification =>
    some (getType documentIdentification, isActive documentIdentification)

/-! ## A concrete instance of the collaborators, to run the parser on examples -/

/-- A workbook as the list of its sheets, each a name and its rows. -/
abbrev Workbook := List (GoString × List (List GoString))

/-- A coercion that accepts the non-empty strings of ASCII digits, with their decimal value,
and rejects every other string. -/
def digitsParseFloat (s : GoString) : Except GoString Int :=
  if s ≠ [] ∧ s.all (fun b => decide (48 ≤ b ∧ b ≤ 57)) = true then
    .ok (s.foldl (fun acc b => 10 * acc + ((b : Int) - 48)) 0)
  else
    .error (str "strconv.ParseFloat: parsing: invalid syntax")

/-- The collaborators over a fixed table of files: a path opens when the table has it, and a
sheet that the workbook does not have has no rows. -/
def tableLib (files : List (GoString × Workbook)) : Lib Int Workbook where
  ParseFloat := digitsParseFloat
  OpenFile := fun path =>
    match files.lookup path with
    | some wb => .ok wb
    | none => .error (str "open: no such file or directory")
  GetRows := fun wb sheet => (wb.lookup sheet).getD []
  quote := fun e => [34] ++ e ++ [34]

/-- A row of fifteen cells with the given texts, the given wage cell and the same number in
the six other numeric columns. -/
def sampleRow (reg name role wage num : String) : List GoString :=
  [str reg, str name, str role, str "x", str wage, str "y", str num, [], [], [],
   str num, str num, str num, str num, str num]

/-- The employee that `sampleRow` extracts to when the wage cell and the number parse. -/
def sampleEmployee (reg name role type : String) (active : Bool) (wage num : Int) :
    Employee Int :=
  { Reg := str reg
    Name := str name
    Role := str role
    Type_ := str type
    Workplace := str "mppe"
    Active := active
    Income := some
      { Total := num, Wage := some wage, Perks := some { Total := num }, Other := none }
    Discounts := some
      { Total := num
        CeilRetention := some num
        IncomeTax := some num
        PrevContribution := some num } }

/-- A workbook with one sheet named Sheet. -/
def oneSheet (rows : List (List GoString)) : Workbook := [(sheetName, rows)]

/-- A file of active members with three employees. -/
def pathA : GoString := str "remuneracao-de-todos-os-membros-ativos-01-2020.xlsx"

/-- The sheet of `pathA`: three header rows, three data rows and a summary row. -/
def rowsA : List (List GoString) :=
  [[str "MPPE"], [], [str "Matricula", str "Nome"],
   sampleRow "11" "Ana" "Promotor" "100" "1",
   sampleRow "12" "Bia" "Procurador" "200" "2",
   sampleRow "13" "Caio" "Promotor" "300" "3",
   [str "Total"]]

/-- A file of inactive members with two employees. -/
def pathB : GoString := str "proventos-de-todos-os-membros-inativos-01-2020.xlsx"

/-- The sheet of `pathB`: three header rows, two data rows and a summary row. -/
def rowsB : List (List GoString) :=
  [[str "MPPE"], [], [str "Matricula", str "Nome"],
   sampleRow "21" "Davi" "Promotor" "400" "4",
   sampleRow "22" "Eva" "Procurador" "500" "5",
   [str "Total"]]

/-- The sheet of `pathB` with other header and summary rows. -/
def rowsB2 : List (List GoString) :=
  [[], [str "Folha"], sampleRow "0" "N/A" "N/A" "N/A" "N/A",
   sampleRow "21" "Davi" "Promotor" "400" "4",
   sampleRow "22" "Eva" "Procurador" "500" "5",
   [str "N/A", str "N/A"]]

/-- A file of pensioners whose second data row has N/A in the wage cell. -/
def pathBad : GoString := str "valores-percebidos-por-todos-os-pensionistas-01-2020.xlsx"

/-- The sheet of `pathBad`. -/
def rowsBad : List (List GoString) :=
  [[str "MPPE"], [], [str "Matricula", str "Nome"],
   sampleRow "31" "Flora" "Pensionista" "600" "6",
   sampleRow "32" "Gil" "Pensionista" "N/A" "7",
   sampleRow "33" "Hugo" "Pensionista" "800" "8",
   [str "Total"]]

/-- The file of `pathB` stored under a directory. -/
def pathInDir : GoString := str "out/proventos-de-todos-os-membros-inativos-01-2020.xlsx"

/-- The collaborators over the sample files. -/
def sampleLib : Lib Int Workbook :=
  tableLib [(pathA, oneSheet rowsA), (pathB, oneSheet rowsB), (pathBad, oneSheet rowsBad),
    (pathInDir, oneSheet rowsB)]

/-- The collaborators over the sample files, with the other sheet for `pathB`. -/
def sampleLib2 : Lib Int Workbook :=
  tableLib [(pathA, oneSheet rowsA), (pathB, oneSheet rowsB2)]

/-- The employees of `pathA`. -/
def employeesA : List (Employee Int) :=
  [sampleEmployee "11" "Ana" "Promotor" "membro" true 100 1,
   sampleEmployee "12" "Bia" "Procurador" "membro" true 200 2,
   sampleEmployee "13" "Caio" "Promotor" "membro" true 300 3]

/-- The employees of `pathB`. -/
def employeesB : List (Employee Int) :=
  [sampleEmployee "21" "Davi" "Promotor" "membro" false 400 4,
   sampleEmployee "22" "Eva" "Procurador" "membro" false 500 5]

/-- The error of the second data row of `pathBad`. -/
def errorBad : GoString :=
  str "error on parsing wage of income details from string to float64 for document "
    ++ str "valores-percebidos-por-todos-os-pensionistas" ++ str ": "
    ++ [34] ++ str "strconv.ParseFloat: parsing: invalid syntax" ++ [34]

/-- A file of collaborators whose sheet has four rows, none of them a usable data row. -/
def pathFew : GoString := str "valores-percebidos-por-todos-os-colaboradores-01-2020.xlsx"

/-- The sheet of `pathFew`. -/
def rowsFew : List (List GoString) :=
  [[], [str "N/A"], sampleRow "0" "N/A" "N/A" "N/A" "N/A", [str "N/A", str "x"]]

/-- A file name of six bytes. -/
def pathShort : GoString := str "a.xlsx"

/-- A file whose workbook has a sheet named Plan1 and no sheet named Sheet. -/
def pathNoSheet : GoString := str "verbas-referentes-a-exercicios-anteriores-01-2020.xlsx"

/-- A path that the table of files does not have: it cannot be opened. -/
def pathMissing : GoString := str "remuneracao-de-todos-os-servidores-atuvos-01-2020.xlsx"

/-- The collaborators over the sample files and the unusual ones. -/
def edgeLib : Lib Int Workbook :=
  tableLib [(pathA, oneSheet rowsA), (pathB, oneSheet rowsB), (pathBad, oneSheet rowsBad),
    (pathFew, oneSheet rowsFew), (pathShort, oneSheet []),
    (pathNoSheet, [(str "Plan1", rowsA)])]

/-- A row of fifteen cells whose seven numeric cells are the string 0. -/
def zeroRow : List GoString := sampleRow "41" "Ivo" "Promotor" "0" "0"

/-- The row `sampleRow "11" "Ana" "Promotor" "100" "1"` with other texts in the unused columns
3, 5, 7, 8 and 9 and two more cells at the end. -/
def otherUnusedRow : List GoString :=
  [str "11", str "Ana", str "Promotor", str "N/A", str "100", [], str "1", str "a", str "b",
   str "c", str "1", str "1", str "1", str "1", str "1", str "extra", str "N/A"]

/-- A row of fifteen cells where the discount total, the income tax and the wage are N/A. -/
def threeBadRow : List GoString :=
  [str "51", str "Joana", str "Promotor", [], str "N/A", [], str "1", [], [], [],
   str "1", str "1", str "N/A", str "1", str "N/A"]

/-- A row of fifteen cells where the income tax and the wage are N/A. -/
def twoBadRow : List GoString :=
  [str "51", str "Joana", str "Promotor", [], str "N/A", [], str "1", [], [], [],
   str "1", str "1", str "N/A", str "1", str "1"]

end Mppe

namespace Mppe

variable {F X : Type}

/-! ## The row loop is the extraction of the data rows -/

theorem rowLoop_eq_aux (lib : Lib F X) (doc : GoString) (n : Nat) :
    ∀ (rest : List (List GoString)) (index : Nat) (employees : List (Employee F)),
      index + rest.length = n →
      rowLoop lib doc n index rest employees
        = extractRows lib doc (rest.dropLast.drop (3 - index)) employees := by
  intro rest
  induction rest with
  | nil => intro index employees _; simp [rowLoop, extractRows]
  | cons row rest ih =>
    intro index employees hn
    simp only [List.length_cons] at hn
    by_cases hskip : index = 0 ∨ index = 1 ∨ index = 2 ∨ (index : Int) = (n : Int) - 1
    · rw [rowLoop, if_pos hskip, ih (index + 1) employees (by omega)]
      cases rest with
      | nil => simp [extractRows]
      | cons r rs =>
        have h3 : index < 3 := by
          simp only [List.length_cons] at hn
          omega
        have : 3 - index = (3 - (index + 1)) + 1 := by omega
        rw [List.dropLast_cons₂, this, List.drop_succ_cons]
    · rw [rowLoop, if_neg hskip]
      have h3 : 3 - index = 0 := by omega
      have h4 : 3 - (index + 1) = 0 := by omega
      cases rest with
      | nil =>
        exfalso
        apply hskip
        simp only [List.length_nil] at hn
        omega
      | cons r rs =>
        rw [List.dropLast_cons₂, h3, List.drop_zero, extractRows]
        cases hrow : parseRow lib row doc with
        | panic => rfl
        | err e => rfl
        | ok employee =>
          simp only []
          rw [ih (index + 1) _ (by omega), h4, List.drop_zero]

theorem rowLoop_eq (lib : Lib F X) (doc : GoString) (rows : List (List GoString))
    (employees : List (Employee F)) :
    rowLoop lib doc rows.length 0 rows employees
      = extractRows lib doc (dataRows rows) employees := by
  rw [rowLoop_eq_aux lib doc rows.length rows 0 employees (by simp)]
  rfl

theorem extractRows_acc (lib : Lib F X) (doc : GoString) :
    ∀ (rs : List (List GoString)) (acc : List (Employee F)),
      extractRows lib doc rs acc
        = match extractRows lib doc rs [] with
          | .ok es => .ok (acc ++ es)
          | .err e => .err e
          | .panic => .panic := by
  intro rs
  induction rs with
  | nil => intro acc; simp [extractRows]
  | cons row rest ih =>
    intro acc
    simp only [extractRows]
    cases hrow : parseRow lib row doc with
    | panic => rfl
    | err e => rfl
    | ok employee =>
      simp only []
      rw [ih (acc ++ [employee]), ih ([] ++ [employee])]
      cases extractRows lib doc rest [] <;> simp

/-! ## The file loop is the sequence of the per-file outcomes -/

theorem fileLoop_cons (lib : Lib F X) (path : GoString) (rest : List GoString)
    (acc : List (Employee F)) :
    fileLoop lib (path :: rest) acc
      = match parseFile lib path with
        | .panic => none
        | .err e => some ([], some e)
        | .ok es => fileLoop lib rest (acc ++ es) := by
  simp only [fileLoop, parseFile]
  cases getFileDocumentation path with
  | none => rfl
  | some doc =>
    simp only []
    cases lib.OpenFile path with
    | error err => rfl
    | ok file =>
      simp only []
      rw [rowLoop_eq, extractRows_acc]
      cases extractRows lib doc (dataRows (lib.GetRows file sheetName)) [] <;> rfl

theorem fileLoop_acc (lib : Lib F X) :
    ∀ (paths : List GoString) (acc : List (Employee F)),
      fileLoop lib paths acc
        = match fileLoop lib paths [] with
          | none => none
          | some (es, none) => some (acc ++ es, none)
          | some (es, some e) => some (es, some e) := by
  intro paths
  induction paths with
  | nil => intro acc; simp [fileLoop]
  | cons path rest ih =>
    intro acc
    rw [fileLoop_cons, fileLoop_cons]
    cases parseFile lib path with
    | panic => rfl
    | err e => rfl
    | ok es =>
      simp only []
      rw [ih (acc ++ es), ih ([] ++ es)]
      cases fileLoop lib rest [] with
      | none => rfl
      | some r =>
        obtain ⟨es2, oe⟩ := r
        cases oe <;> simp

theorem fileLoop_append (lib : Lib F X) :
    ∀ (P Q : List GoString) (acc : List (Employee F)),
      fileLoop lib (P ++ Q) acc
        = match fileLoop lib P acc with
          | some (es, none) => fileLoop lib Q es
          | r => r := by
  intro P
  induction P with
  | nil => intro Q acc; simp [fileLoop]
  | cons path rest ih =>
    intro Q acc
    rw [List.cons_append, fileLoop_cons, fileLoop_cons]
    cases parseFile lib path with
    | panic => rfl
    | err e => rfl
    | ok es => exact ih Q (acc ++ es)

theorem fileLoop_err_nil (lib : Lib F X) :
    ∀ (paths : List GoString) (acc es : List (Employee F)) (e : GoString),
      fileLoop lib paths acc = some (es, some e) → es = [] := by
  intro paths
  induction paths with
  | nil => intro acc es e h; simp [fileLoop] at h
  | cons path rest ih =>
    intro acc es e h
    rw [fileLoop_cons] at h
    cases hp : parseFile lib path with
    | panic => rw [hp] at h; simp at h
    | err e2 =>
      rw [hp] at h
      simp only [Option.some.injEq, Prod.mk.injEq] at h
      exact h.1.symm
    | ok es2 =>
      rw [hp] at h
      exact ih _ es e h

/-! ## The data rows by index -/

theorem dataRows_length (rows : List (List GoString)) :
    (dataRows rows).length = rows.length - 4 := by
  simp only [dataRows, List.length_drop, List.length_dropLast]
  omega

theorem dataRows_getElem? (rows : List (List GoString)) (k : Nat) :
    (dataRows rows)[k]? = if k + 4 < rows.length then rows[k + 3]? else none := by
  simp only [dataRows, List.getElem?_drop, List.getElem?_dropLast]
  by_cases h : k + 4 < rows.length
  · rw [if_pos h, if_pos (by omega), Nat.add_comm]
  · rw [if_neg h, if_neg (by omega)]

theorem extractRows_ok_of_get (lib : Lib F X) (doc : GoString) :
    ∀ (rs : List (List GoString)) (acc : List (Employee F)) (g : Nat → Employee F),
      (∀ k row, rs[k]? = some row → parseRow lib row doc = .ok (g k)) →
      extractRows lib doc rs acc = .ok (acc ++ (List.range rs.length).map g) := by
  intro rs
  induction rs with
  | nil => intro acc g _; simp [extractRows]
  | cons row rest ih =>
    intro acc g h
    have h0 : parseRow lib row doc = .ok (g 0) := h 0 row (by simp)
    simp only [extractRows, h0]
    rw [ih (acc ++ [g 0]) (fun k => g (k + 1)) (fun k r hk => h (k + 1) r (by simpa using hk))]
    simp [List.range_succ_eq_map, List.map_map, Function.comp_def]

theorem extractRows_ok_iff (lib : Lib F X) (doc : GoString) :
    ∀ (rs : List (List GoString)) (acc es : List (Employee F)),
      extractRows lib doc rs acc = .ok es ↔
        ∃ es', es = acc ++ es' ∧
          List.Forall₂ (fun row e => parseRow lib row doc = .ok e) rs es' := by
  intro rs
  induction rs with
  | nil =>
    intro acc es
    simp only [extractRows, Res.ok.injEq, List.forall₂_nil_left_iff]
    constructor
    · intro h; exact ⟨[], by simp [h], rfl⟩
    · rintro ⟨es', h, rfl⟩; simp [h]
  | cons row rest ih =>
    intro acc es
    simp only [extractRows, List.forall₂_cons_left_iff]
    cases hrow : parseRow lib row doc with
    | panic =>
      simp only []
      constructor
      · intro h; cases h
      · rintro ⟨_, _, e, _, h, _⟩; cases h
    | err e0 =>
      simp only []
      constructor
      · intro h; cases h
      · rintro ⟨_, _, e, _, h, _⟩; cases h
    | ok employee =>
      simp only [ih]
      constructor
      · rintro ⟨es', h, hf⟩
        exact ⟨employee :: es', by simp [h], employee, es', rfl, hf, rfl⟩
      · rintro ⟨_, h, e, es', he, hf, rfl⟩
        cases he
        exact ⟨es', by simp [h], hf⟩

theorem parseCell_congr {X' : Type} (lib : Lib F X) (lib' : Lib F X')
    (hpf : lib'.ParseFloat = lib.ParseFloat) (hq : lib'.quote = lib.quote)
    (row : List GoString) (index : Nat) (what doc : GoString) :
    parseCell lib' row index what doc = parseCell lib row index what doc := by
  simp only [parseCell, hpf, hq]

theorem parseRow_congr {X' : Type} (lib : Lib F X) (lib' : Lib F X')
    (hpf : lib'.ParseFloat = lib.ParseFloat) (hq : lib'.quote = lib.quote)
    (row : List GoString) (doc : GoString) :
    parseRow lib' row doc = parseRow lib row doc := by
  simp only [parseRow, getDiscounts, getIncome, getPerks, parseCell_congr lib lib' hpf hq]

theorem extractRows_congr {X' : Type} (lib : Lib F X) (lib' : Lib F X')
    (hpf : lib'.ParseFloat = lib.ParseFloat) (hq : lib'.quote = lib.quote) (doc : GoString) :
    ∀ (rs : List (List GoString)) (acc : List (Employee F)),
      extractRows lib' doc rs acc = extractRows lib doc rs acc := by
  intro rs
  induction rs with
  | nil => intro acc; rfl
  | cons row rest ih =>
    intro acc
    simp only [extractRows, parseRow_congr lib lib' hpf hq, ih]

theorem Parse_singleton (lib : Lib F X) (path doc : GoString) (file : X)
    (hdoc : getFileDocumentation path = some doc) (hopen : lib.OpenFile path = .ok file) :
    Parse lib [path]
      = match extractRows lib doc (dataRows (lib.GetRows file sheetName)) [] with
        | .ok es => some (es, none)
        | .err e => some ([], some e)
        | .panic => none := by
  rw [Parse, fileLoop_cons]
  simp only [parseFile, hdoc, hopen]
  cases extractRows lib doc (dataRows (lib.GetRows file sheetName)) [] <;> simp [fileLoop]

/-! ## Row filter -/

/-- C1: for a single file whose sheet has rows r[0..n-1], Parse is the extraction, in sheet
order, of the rows of index 3 to n-2: it is the outcome of extracting the data rows one after
the other; when each of them extracts to e i the output is [e 3, ..., e (n-2)]; and a second
sheet of the same length with the same rows at the indices 3 to n-2 gives the same outcome,
whatever its rows 0, 1, 2 and n-1 contain. -/
theorem Parse_single_file_data_rows {X' : Type} (lib : Lib F X) (lib' : Lib F X')
    (path doc : GoString) (file : X) (file' : X')
    (hdoc : getFileDocumentation path = some doc)
    (hopen : lib.OpenFile path = .ok file) :
    (Parse lib [path]
      = match extractRows lib doc (dataRows (lib.GetRows file sheetName)) [] with
        | .ok es => some (es, none)
        | .err e => some ([], some e)
        | .panic => none)
    ∧ (∀ k, (dataRows (lib.GetRows file sheetName))[k]?
        = if k + 3 ≤ (lib.GetRows file sheetName).length - 2
          then (lib.GetRows file sheetName)[k + 3]? else none)
    ∧ (∀ e : Nat → Employee F,
        (∀ i, 3 ≤ i → i + 2 ≤ (lib.GetRows file sheetName).length →
          ∃ row, (lib.GetRows file sheetName)[i]? = some row
            ∧ parseRow lib row doc = .ok (e i)) →
        Parse lib [path]
          = some ((List.range ((lib.GetRows file sheetName).length - 4)).map
              (fun k => e (k + 3)), none))
    ∧ (lib'.ParseFloat = lib.ParseFloat → lib'.quote = lib.quote →
        lib'.OpenFile path = .ok file' →
        (lib'.GetRows file' sheetName).length = (lib.GetRows file sheetName).length →
        (∀ i, 3 ≤ i → i + 2 ≤ (lib.GetRows file sheetName).length →
          (lib'.GetRows file' sheetName)[i]? = (lib.GetRows file sheetName)[i]?) →
        Parse lib' [path] = Parse lib [path]) := by
  refine ⟨Parse_singleton lib path doc file hdoc hopen, ?_, ?_, ?_⟩
  · intro k
    rw [dataRows_getElem?]
    by_cases h : k + 4 < (lib.GetRows file sheetName).length
    · rw [if_pos h, if_pos (by omega)]
    · rw [if_neg h]
      by_cases h2 : k + 3 ≤ (lib.GetRows file sheetName).length - 2
      · rw [if_pos h2]
        have : (lib.GetRows file sheetName).length ≤ k + 3 := by omega
        exact (List.getElem?_eq_none this).symm
      · rw [if_neg h2]
  · intro e he
    rw [Parse_singleton lib path doc file hdoc hopen,
      extractRows_ok_of_get lib doc _ [] (fun k => e (k + 3)), dataRows_length]
    · simp
    · intro k row hk
      rw [dataRows_getElem?] at hk
      by_cases h : k + 4 < (lib.GetRows file sheetName).length
      · rw [if_pos h] at hk
        obtain ⟨row', hrow', hp⟩ := he (k + 3) (by omega) (by omega)
        rw [hk] at hrow'
        cases hrow'
        exact hp
      · rw [if_neg h] at hk
        cases hk
  · intro hpf hq hopen' hlen hrows
    rw [Parse_singleton lib path doc file hdoc hopen,
      Parse_singleton lib' path doc file' hdoc hopen',
      extractRows_congr lib lib' hpf hq]
    have hd : dataRows (lib'.GetRows file' sheetName) = dataRows (lib.GetRows file sheetName) := by
      apply List.ext_getElem?
      intro k
      rw [dataRows_getElem?, dataRows_getElem?, hlen]
      by_cases h : k + 4 < (lib.GetRows file sheetName).length
      · rw [if_pos h, if_pos h]
        exact hrows (k + 3) (by omega) (by omega)
      · rw [if_neg h, if_neg h]
    rw [hd]

/-- The sheet of `pathB` read twice, the second time with other header and summary rows. -/
theorem Parse_single_file_data_rows_witness :
    getFileDocumentation pathB = some (str "proventos-de-todos-os-membros-inativos")
    ∧ sampleLib.OpenFile pathB = .ok (oneSheet rowsB)
    ∧ Parse sampleLib [pathB] = some (employeesB, none)
    ∧ Parse sampleLib2 [pathB] = Parse sampleLib [pathB] := by
  have h := Parse_single_file_data_rows sampleLib sampleLib2 pathB
    (str "proventos-de-todos-os-membros-inativos") (oneSheet rowsB) (oneSheet rowsB2)
    (by decide) rfl
  have hlen : (sampleLib.GetRows (oneSheet rowsB) sheetName).length = 6 := by decide
  refine ⟨by decide, rfl, ?_, ?_⟩
  · refine (h.2.2.1 (fun i => if i = 3 then sampleEmployee "21" "Davi" "Promotor" "membro" false
      400 4 else sampleEmployee "22" "Eva" "Procurador" "membro" false 500 5) ?_).trans
      (by decide)
    intro i h3 h6
    rw [hlen] at h6
    have hi : i = 3 ∨ i = 4 := by omega
    rcases hi with rfl | rfl
    · exact ⟨sampleRow "21" "Davi" "Promotor" "400" "4", by decide, by decide⟩
    · exact ⟨sampleRow "22" "Eva" "Procurador" "500" "5", by decide, by decide⟩
  · refine h.2.2.2 rfl rfl rfl (by decide) ?_
    intro i h3 h6
    rw [hlen] at h6
    have hi : i = 3 ∨ i = 4 := by omega
    rcases hi with rfl | rfl <;> decide

/-- C2: when Parse of a single file succeeds, the number of records is max(0, rowCount - 4),
where rowCount is the number of rows of the sheet. -/
theorem Parse_single_file_count (lib : Lib F X) (path : GoString) (file : X)
    (es : List (Employee F)) (hopen : lib.OpenFile path = .ok file)
    (hok : Parse lib [path] = some (es, none)) :
    (es.length : Int) = max 0 (((lib.GetRows file sheetName).length : Int) - 4) := by
  cases hdoc : getFileDocumentation path with
  | none => simp [Parse, fileLoop, hdoc] at hok
  | some doc =>
    rw [Parse_singleton lib path doc file hdoc hopen] at hok
    cases hx : extractRows lib doc (dataRows (lib.GetRows file sheetName)) [] with
    | panic => rw [hx] at hok; simp at hok
    | err e => rw [hx] at hok; simp at hok
    | ok es2 =>
      rw [hx] at hok
      simp only [Option.some.injEq, Prod.mk.injEq, and_true] at hok
      subst hok
      obtain ⟨es', h, hf⟩ := (extractRows_ok_iff lib doc _ [] es2).1 hx
      have hl := hf.length_eq
      rw [dataRows_length] at hl
      simp only [List.nil_append] at h
      subst h
      omega

/-- The seven rows of `pathA` give three records. -/
theorem Parse_single_file_count_witness :
    sampleLib.OpenFile pathA = .ok (oneSheet rowsA)
    ∧ Parse sampleLib [pathA] = some (employeesA, none)
    ∧ (employeesA.length : Int)
        = max 0 (((sampleLib.GetRows (oneSheet rowsA) sheetName).length : Int) - 4) :=
  ⟨rfl, by decide,
    Parse_single_file_count sampleLib pathA (oneSheet rowsA) employeesA rfl (by decide)⟩

/-! ## Row extractor -/

theorem parseCell_of_lt (lib : Lib F X) (row : List GoString) (index : Nat) (what doc : GoString)
    (h : index < row.length) :
    parseCell lib row index what doc
      = match lib.ParseFloat row[index] with
        | .error err => .err (what ++ str " for document " ++ doc ++ str ": " ++ lib.quote err)
        | .ok v => .ok v := by
  simp only [parseCell, List.getElem?_eq_getElem h]

/-- C3: the record built from a row of at least 15 cells whose seven numeric cells parse has
the cells 0, 1 and 2 verbatim as registration code, name and role, the parsed cells 4, 6, 10,
11, 12, 13 and 14 as wage, perks total, income total, pension contribution, income tax, ceil
retention and discount total, the workplace mppe and no other income. -/
theorem parseRow_fields (lib : Lib F X) (row : List GoString) (doc : GoString)
    (hlen : 15 ≤ row.length) (wage perks income prev tax ceil total : F)
    (h4 : lib.ParseFloat row[4] = .ok wage)
    (h6 : lib.ParseFloat row[6] = .ok perks)
    (h10 : lib.ParseFloat row[10] = .ok income)
    (h11 : lib.ParseFloat row[11] = .ok prev)
    (h12 : lib.ParseFloat row[12] = .ok tax)
    (h13 : lib.ParseFloat row[13] = .ok ceil)
    (h14 : lib.ParseFloat row[14] = .ok total) :
    parseRow lib row doc = .ok
      { Reg := row[0]
        Name := row[1]
        Role := row[2]
        Type_ := getType doc
        Workplace := str "mppe"
        Active := isActive doc
        Income := some
          { Total := income, Wage := some wage, Perks := some { Total := perks }, Other := none }
        Discounts := some
          { Total := total
            CeilRetention := some ceil
            IncomeTax := some tax
            PrevContribution := some prev } } := by
  simp only [parseRow, getDiscounts, getIncome, getPerks, totalDiscountIndex,
    ceilRetentionIndex, incomeTaxIndex, prevContributionIndex, totalIncomeDetailsIndex,
    wageIndex, totalPerkIndex, registerCodeIndex, nameIndex, roleIndex]
  rw [parseCell_of_lt lib row 14 _ doc (by omega), parseCell_of_lt lib row 13 _ doc (by omega),
    parseCell_of_lt lib row 12 _ doc (by omega), parseCell_of_lt lib row 11 _ doc (by omega),
    parseCell_of_lt lib row 10 _ doc (by omega), parseCell_of_lt lib row 4 _ doc (by omega),
    parseCell_of_lt lib row 6 _ doc (by omega)]
  simp only [h4, h6, h10, h11, h12, h13, h14]
  rw [List.getElem?_eq_getElem (show 0 < row.length by omega),
    List.getElem?_eq_getElem (show 1 < row.length by omega),
    List.getElem?_eq_getElem (show 2 < row.length by omega)]

/-- The first data row of `pathA`. -/
theorem parseRow_fields_witness :
    15 ≤ (sampleRow "11" "Ana" "Promotor" "100" "1").length
    ∧ parseRow sampleLib (sampleRow "11" "Ana" "Promotor" "100" "1")
        (str "remuneracao-de-todos-os-membros-ativos")
      = .ok (sampleEmployee "11" "Ana" "Promotor" "membro" true 100 1) :=
  ⟨by decide,
    (parseRow_fields sampleLib (sampleRow "11" "Ana" "Promotor" "100" "1")
      (str "remuneracao-de-todos-os-membros-ativos") (by decide) 100 1 1 1 1 1 1
      rfl rfl rfl rfl rfl rfl rfl).trans (by decide)⟩

theorem parseRow_cases (lib : Lib F X) (row : List GoString) (doc : GoString)
    (hlen : 15 ≤ row.length) :
    ((∃ e, parseRow lib row doc = .err e) ∧
      ∃ k ∈ [4, 6, 10, 11, 12, 13, 14], ∃ cell err,
        row[k]? = some cell ∧ lib.ParseFloat cell = .error err)
    ∨ ((∃ employee, parseRow lib row doc = .ok employee) ∧
      ¬ ∃ k ∈ [4, 6, 10, 11, 12, 13, 14], ∃ cell err,
        row[k]? = some cell ∧ lib.ParseFloat cell = .error err) := by
  simp only [parseRow, getDiscounts, getIncome, getPerks, totalDiscountIndex,
    ceilRetentionIndex, incomeTaxIndex, prevContributionIndex, totalIncomeDetailsIndex,
    wageIndex, totalPerkIndex, registerCodeIndex, nameIndex, roleIndex]
  rw [parseCell_of_lt lib row 14 _ doc (by omega), parseCell_of_lt lib row 13 _ doc (by omega),
    parseCell_of_lt lib row 12 _ doc (by omega), parseCell_of_lt lib row 11 _ doc (by omega),
    parseCell_of_lt lib row 10 _ doc (by omega), parseCell_of_lt lib row 4 _ doc (by omega),
    parseCell_of_lt lib row 6 _ doc (by omega)]
  simp only [List.mem_cons, List.mem_singleton, List.not_mem_nil, or_false, exists_eq_or_imp,
    exists_eq_left]
  rw [List.getElem?_eq_getElem (show 0 < row.length by omega),
    List.getElem?_eq_getElem (show 1 < row.length by omega),
    List.getElem?_eq_getElem (show 2 < row.length by omega),
    List.getElem?_eq_getElem (show 4 < row.length by omega),
    List.getElem?_eq_getElem (show 6 < row.length by omega),
    List.getElem?_eq_getElem (show 10 < row.length by omega),
    List.getElem?_eq_getElem (show 11 < row.length by omega),
    List.getElem?_eq_getElem (show 12 < row.length by omega),
    List.getElem?_eq_getElem (show 13 < row.length by omega),
    List.getElem?_eq_getElem (show 14 < row.length by omega)]
  simp only [Option.some.injEq, exists_eq_left']
  cases h14 : lib.ParseFloat row[14] with
  | error e => simp [h14]
  | ok v14 =>
  cases h13 : lib.ParseFloat row[13] with
  | error e => simp [h13]
  | ok v13 =>
  cases h12 : lib.ParseFloat row[12] with
  | error e => simp [h12]
  | ok v12 =>
  cases h11 : lib.ParseFloat row[11] with
  | error e => simp [h11]
  | ok v11 =>
  cases h10 : lib.ParseFloat row[10] with
  | error e => simp [h10]
  | ok v10 =>
  cases h4 : lib.ParseFloat row[4] with
  | error e => simp [h4]
  | ok v4 =>
  cases h6 : lib.ParseFloat row[6] with
  | error e => simp [h6]
  | ok v6 => simp [h4, h6, h10, h11, h12, h13, h14]

theorem parseRow_err_iff_cells (lib : Lib F X) (row : List GoString) (doc : GoString)
    (hlen : 15 ≤ row.length) :
    (∃ e, parseRow lib row doc = .err e) ↔
      ∃ k ∈ [4, 6, 10, 11, 12, 13, 14], ∃ cell err,
        row[k]? = some cell ∧ lib.ParseFloat cell = .error err := by
  rcases parseRow_cases lib row doc hlen with ⟨h1, h2⟩ | ⟨⟨employee, h1⟩, h2⟩
  · exact ⟨fun _ => h2, fun _ => h1⟩
  · constructor
    · rintro ⟨e, he⟩
      rw [h1] at he
      cases he
    · intro h
      exact absurd h h2

/-- C4: the extraction of a row of at least 15 cells fails with a parse error if and only if
one of the seven numeric cells (4, 6, 10, 11, 12, 13, 14) cannot be coerced to a float; so a
row whose wage cell is N/A fails whenever the coercion rejects N/A. -/
theorem parseRow_err_iff (lib : Lib F X) (row : List GoString) (doc : GoString)
    (hlen : 15 ≤ row.length) :
    ((∃ e, parseRow lib row doc = .err e) ↔
      ∃ k ∈ [4, 6, 10, 11, 12, 13, 14], ∃ cell err,
        row[k]? = some cell ∧ lib.ParseFloat cell = .error err)
    ∧ (∀ err, lib.ParseFloat (str "N/A") = .error err → row[4]? = some (str "N/A") →
        ∃ e, parseRow lib row doc = .err e) := by
  refine ⟨parseRow_err_iff_cells lib row doc hlen, ?_⟩
  intro err hna h4
  exact (parseRow_err_iff_cells lib row doc hlen).2 ⟨4, by simp, str "N/A", err, h4, hna⟩

/-- The row of `pathBad` whose wage cell is N/A. -/
theorem parseRow_err_iff_witness :
    15 ≤ (sampleRow "32" "Gil" "Pensionista" "N/A" "7").length
    ∧ sampleLib.ParseFloat (str "N/A")
      = .error (str "strconv.ParseFloat: parsing: invalid syntax")
    ∧ (∃ e, parseRow sampleLib (sampleRow "32" "Gil" "Pensionista" "N/A" "7")
        (str "valores-percebidos-por-todos-os-pensionistas") = .err e) :=
  ⟨by decide, rfl,
    (parseRow_err_iff sampleLib (sampleRow "32" "Gil" "Pensionista" "N/A" "7")
      (str "valores-percebidos-por-todos-os-pensionistas") (by decide)).2
      (str "strconv.ParseFloat: parsing: invalid syntax") rfl (by decide)⟩

/-! ## Batch driver -/

theorem parseRow_ne_panic (lib : Lib F X) (row : List GoString) (doc : GoString)
    (hlen : 15 ≤ row.length) : parseRow lib row doc ≠ .panic := by
  rcases parseRow_cases lib row doc hlen with ⟨⟨e, h⟩, _⟩ | ⟨⟨employee, h⟩, _⟩ <;>
    rw [h] <;> exact fun hc => Res.noConfusion hc

theorem extractRows_ne_panic (lib : Lib F X) (doc : GoString) :
    ∀ (rs : List (List GoString)) (acc : List (Employee F)),
      (∀ row ∈ rs, 15 ≤ row.length) → extractRows lib doc rs acc ≠ .panic := by
  intro rs
  induction rs with
  | nil => intro acc _; simp [extractRows]
  | cons row rest ih =>
    intro acc h
    simp only [extractRows]
    cases hrow : parseRow lib row doc with
    | panic => exact absurd hrow (parseRow_ne_panic lib row doc (h row (by simp)))
    | err e => simp
    | ok employee => exact ih _ (fun r hr => h r (List.mem_cons_of_mem _ hr))

theorem extractRows_append (lib : Lib F X) (doc : GoString) :
    ∀ (rs rs2 : List (List GoString)) (acc : List (Employee F)),
      extractRows lib doc (rs ++ rs2) acc
        = match extractRows lib doc rs acc with
          | .ok es => extractRows lib doc rs2 es
          | .err e => .err e
          | .panic => .panic := by
  intro rs
  induction rs with
  | nil => intro rs2 acc; simp [extractRows]
  | cons row rest ih =>
    intro rs2 acc
    simp only [List.cons_append, extractRows]
    cases parseRow lib row doc with
    | panic => rfl
    | err e => rfl
    | ok employee => exact ih rs2 _

theorem getFileDocumentation_of_le (fileName : GoString) (h : 13 ≤ fileName.length) :
    getFileDocumentation fileName = some (fileName.take (fileName.length - 13)) := by
  simp only [getFileDocumentation]
  rw [if_neg (by omega)]
  congr 2
  omega

theorem parseFile_ne_panic (lib : Lib F X) (path : GoString) (hname : 13 ≤ path.length)
    (hcells : ∀ file, lib.OpenFile path = .ok file →
      ∀ row ∈ dataRows (lib.GetRows file sheetName), 15 ≤ row.length) :
    parseFile lib path ≠ .panic := by
  simp only [parseFile, getFileDocumentation_of_le path hname]
  cases hopen : lib.OpenFile path with
  | error err => simp
  | ok file => exact extractRows_ne_panic lib _ _ [] (hcells file hopen)

theorem fileLoop_ne_none (lib : Lib F X) :
    ∀ (paths : List GoString) (acc : List (Employee F)),
      (∀ path ∈ paths, 13 ≤ path.length) →
      (∀ path ∈ paths, ∀ file, lib.OpenFile path = .ok file →
        ∀ row ∈ dataRows (lib.GetRows file sheetName), 15 ≤ row.length) →
      fileLoop lib paths acc ≠ none := by
  intro paths
  induction paths with
  | nil => intro acc _ _; simp [fileLoop]
  | cons path rest ih =>
    intro acc hnames hcells
    rw [fileLoop_cons]
    cases hp : parseFile lib path with
    | panic =>
      exact absurd hp (parseFile_ne_panic lib path (hnames path (by simp)) (hcells path (by simp)))
    | err e => simp
    | ok es =>
      exact ih _ (fun p hp => hnames p (List.mem_cons_of_mem _ hp))
        (fun p hp => hcells p (List.mem_cons_of_mem _ hp))

theorem fileLoop_ok_parseFile (lib : Lib F X) :
    ∀ (paths : List GoString) (acc es : List (Employee F)),
      fileLoop lib paths acc = some (es, none) →
      ∀ path ∈ paths, ∃ es', parseFile lib path = .ok es' := by
  intro paths
  induction paths with
  | nil => intro acc es _ path hp; simp at hp
  | cons p rest ih =>
    intro acc es h path hpath
    rw [fileLoop_cons] at h
    cases hp : parseFile lib p with
    | panic => rw [hp] at h; simp at h
    | err e => rw [hp] at h; simp at h
    | ok es2 =>
      rw [hp] at h
      rcases List.mem_cons.1 hpath with rfl | hmem
      · exact ⟨es2, hp⟩
      · exact ih _ es h path hmem

theorem parseFile_ok_rows (lib : Lib F X) (path : GoString) (file : X) (es : List (Employee F))
    (hopen : lib.OpenFile path = .ok file) (h : parseFile lib path = .ok es) :
    ∀ row ∈ dataRows (lib.GetRows file sheetName),
      ∃ doc employee, parseRow lib row doc = .ok employee := by
  simp only [parseFile] at h
  cases hdoc : getFileDocumentation path with
  | none => rw [hdoc] at h; simp at h
  | some doc =>
    rw [hdoc] at h
    simp only [hopen] at h
    obtain ⟨es', _, hf⟩ := (extractRows_ok_iff lib doc _ [] es).1 h
    intro row hrow
    obtain ⟨k, hk, rfl⟩ := List.getElem_of_mem hrow
    have hk' : k < es'.length := by rw [← hf.length_eq]; exact hk
    exact ⟨doc, es'[k], (List.forall₂_iff_get.1 hf).2 k hk hk'⟩

/-- C5: batch atomicity. When the rows and files before a data row were extracted
successfully and that row fails, Parse returns the error and no record; on a list of files with
names of at least 13 bytes and data rows of at least 15 cells, a data row with a numeric cell
that cannot be coerced, anywhere in the list, makes Parse return an error and no record; and
Parse never returns an error together with a non-empty sequence of records. -/
theorem Parse_batch_atomic (lib : Lib F X) (paths pre post : List GoString)
    (path doc : GoString) (file : X) (before after : List (List GoString))
    (row : List GoString) (acc es1 : List (Employee F)) (e : GoString) :
    (Parse lib pre = some (acc, none) →
      getFileDocumentation path = some doc → lib.OpenFile path = .ok file →
      dataRows (lib.GetRows file sheetName) = before ++ row :: after →
      List.Forall₂ (fun r employee => parseRow lib r doc = .ok employee) before es1 →
      parseRow lib row doc = .err e →
      Parse lib (pre ++ path :: post) = some ([], some e))
    ∧ ((∀ p ∈ paths, 13 ≤ p.length) →
      (∀ p ∈ paths, ∀ f, lib.OpenFile p = .ok f →
        ∀ r ∈ dataRows (lib.GetRows f sheetName), 15 ≤ r.length) →
      (∃ p ∈ paths, ∃ f, lib.OpenFile p = .ok f ∧
        ∃ r ∈ dataRows (lib.GetRows f sheetName), ∃ k ∈ [4, 6, 10, 11, 12, 13, 14],
          ∃ cell err, r[k]? = some cell ∧ lib.ParseFloat cell = .error err) →
      ∃ e', Parse lib paths = some ([], some e'))
    ∧ (∀ es e', Parse lib paths = some (es, some e') → es = []) := by
  refine ⟨?_, ?_, ?_⟩
  · intro hpre hdoc hopen hrows hbefore hrow
    have hx : extractRows lib doc (before ++ row :: after) [] = .err e := by
      rw [extractRows_append,
        (extractRows_ok_iff lib doc before [] ([] ++ es1)).2 ⟨es1, rfl, hbefore⟩]
      simp only [extractRows, hrow]
    have hfile : parseFile lib path = .err e := by
      simp only [parseFile, hdoc, hopen, hrows, hx]
    rw [Parse] at hpre
    rw [Parse, fileLoop_append, hpre]
    simp only []
    rw [fileLoop_cons, hfile]
  · intro hnames hcells hfail
    cases hP : Parse lib paths with
    | none => exact absurd hP (fileLoop_ne_none lib paths [] hnames hcells)
    | some r =>
      obtain ⟨es, oe⟩ := r
      cases oe with
      | some e' =>
        have hnil : es = [] := fileLoop_err_nil lib paths [] es e' hP
        subst hnil
        exact ⟨e', rfl⟩
      | none =>
        exfalso
        obtain ⟨p, hp, f, hopen, r, hr, hk⟩ := hfail
        obtain ⟨es', hes'⟩ := fileLoop_ok_parseFile lib paths [] es hP p hp
        obtain ⟨d, employee, hok⟩ := parseFile_ok_rows lib p f es' hopen hes' r hr
        obtain ⟨e2, he2⟩ := (parseRow_err_iff_cells lib r d (hcells p hp f hopen r hr)).2 hk
        rw [hok] at he2
        cases he2
  · intro es e' h
    exact fileLoop_err_nil lib paths [] es e' h

/-- The file `pathBad` after `pathA`: the three employees of `pathA` and the first data row of
`pathBad` are extracted, the second data row fails, and Parse returns its error alone. -/
theorem Parse_batch_atomic_witness :
    Parse sampleLib [pathA] = some (employeesA, none)
    ∧ parseRow sampleLib (sampleRow "32" "Gil" "Pensionista" "N/A" "7")
        (str "valores-percebidos-por-todos-os-pensionistas") = .err errorBad
    ∧ Parse sampleLib ([pathA] ++ pathBad :: [pathB]) = some ([], some errorBad)
    ∧ (∃ e', Parse sampleLib [pathA, pathBad, pathB] = some ([], some e'))
    ∧ (∀ es e', Parse sampleLib [pathA, pathBad, pathB] = some (es, some e') → es = []) := by
  have h := Parse_batch_atomic sampleLib [pathA, pathBad, pathB] [pathA] [pathB] pathBad
    (str "valores-percebidos-por-todos-os-pensionistas") (oneSheet rowsBad)
    [sampleRow "31" "Flora" "Pensionista" "600" "6"]
    [sampleRow "33" "Hugo" "Pensionista" "800" "8"]
    (sampleRow "32" "Gil" "Pensionista" "N/A" "7") employeesA
    [sampleEmployee "31" "Flora" "Pensionista" "pensionista" false 600 6] errorBad
  refine ⟨by decide, by decide, ?_, ?_, h.2.2⟩
  · exact h.1 (by decide) (by decide) rfl (by decide)
      (List.Forall₂.cons (by decide) List.Forall₂.nil) (by decide)
  · refine h.2.1 (by decide) ?_ ?_
    · intro p hp f hf
      simp only [List.mem_cons, List.mem_singleton, List.not_mem_nil, or_false] at hp
      rcases hp with rfl | rfl | rfl
      · have hA : sampleLib.OpenFile pathA = .ok (oneSheet rowsA) := rfl
        rw [hA] at hf
        cases hf
        decide
      · have hA : sampleLib.OpenFile pathBad = .ok (oneSheet rowsBad) := rfl
        rw [hA] at hf
        cases hf
        decide
      · have hA : sampleLib.OpenFile pathB = .ok (oneSheet rowsB) := rfl
        rw [hA] at hf
        cases hf
        decide
    · exact ⟨pathBad, by decide, oneSheet rowsBad, rfl,
        sampleRow "32" "Gil" "Pensionista" "N/A" "7", by decide, 4, by decide, str "N/A",
        str "strconv.ParseFloat: parsing: invalid syntax", by decide, rfl⟩

/-- C6: the output is the concatenation of the per-file results in input order. If Parse
succeeds on P with a and on Q with b, it succeeds on P ++ Q with a ++ b; and a file A whose data
rows extract to a1, a2, a3 followed by a file B whose data rows extract to b1, b2 gives exactly
a1, a2, a3, b1, b2. -/
theorem Parse_append (lib : Lib F X) (P Q : List GoString) (a b : List (Employee F))
    (hP : Parse lib P = some (a, none)) (hQ : Parse lib Q = some (b, none)) :
    Parse lib (P ++ Q) = some (a ++ b, none)
    ∧ (∀ (pathA pathB docA docB : GoString) (fileA fileB : X)
        (r1 r2 r3 s1 s2 : List GoString) (a1 a2 a3 b1 b2 : Employee F),
        getFileDocumentation pathA = some docA → lib.OpenFile pathA = .ok fileA →
        getFileDocumentation pathB = some docB → lib.OpenFile pathB = .ok fileB →
        dataRows (lib.GetRows fileA sheetName) = [r1, r2, r3] →
        dataRows (lib.GetRows fileB sheetName) = [s1, s2] →
        parseRow lib r1 docA = .ok a1 → parseRow lib r2 docA = .ok a2 →
        parseRow lib r3 docA = .ok a3 →
        parseRow lib s1 docB = .ok b1 → parseRow lib s2 docB = .ok b2 →
        Parse lib [pathA, pathB] = some ([a1, a2, a3, b1, b2], none)) := by
  constructor
  · rw [Parse] at hP hQ
    rw [Parse, fileLoop_append, hP]
    simp only []
    rw [fileLoop_acc, hQ]
  · intro pathA pathB docA docB fileA fileB r1 r2 r3 s1 s2 a1 a2 a3 b1 b2
      hdA hoA hdB hoB hrA hrB h1 h2 h3 h4 h5
    have hA : parseFile lib pathA = .ok [a1, a2, a3] := by
      simp [parseFile, hdA, hoA, hrA, extractRows, h1, h2, h3]
    have hB : parseFile lib pathB = .ok [b1, b2] := by
      simp [parseFile, hdB, hoB, hrB, extractRows, h4, h5]
    rw [Parse, fileLoop_cons, hA]
    simp only []
    rw [fileLoop_cons, hB]
    simp [fileLoop]

/-- The files `pathA` (three employees) and `pathB` (two employees), one after the other. -/
theorem Parse_append_witness :
    Parse sampleLib [pathA] = some (employeesA, none)
    ∧ Parse sampleLib [pathB] = some (employeesB, none)
    ∧ Parse sampleLib ([pathA] ++ [pathB]) = some (employeesA ++ employeesB, none)
    ∧ Parse sampleLib [pathA, pathB]
        = some ([sampleEmployee "11" "Ana" "Promotor" "membro" true 100 1,
            sampleEmployee "12" "Bia" "Procurador" "membro" true 200 2,
            sampleEmployee "13" "Caio" "Promotor" "membro" true 300 3,
            sampleEmployee "21" "Davi" "Promotor" "membro" false 400 4,
            sampleEmployee "22" "Eva" "Procurador" "membro" false 500 5], none) := by
  have h := Parse_append sampleLib [pathA] [pathB] employeesA employeesB (by decide) (by decide)
  refine ⟨by decide, by decide, h.1, ?_⟩
  exact h.2 pathA pathB (str "remuneracao-de-todos-os-membros-ativos")
    (str "proventos-de-todos-os-membros-inativos") (oneSheet rowsA) (oneSheet rowsB)
    _ _ _ _ _ _ _ _ _ _ (by decide) rfl (by decide) rfl rfl rfl
    (by decide) (by decide) (by decide) (by decide) (by decide)

/-! ## Document classifier -/

/-- C7, evaluated on a path with a directory: the token that Parse classifies with is the path
without its last 13 bytes, directory included, not the base name without them, so the file of
inactive members is classified as undefined and active. -/
theorem getFileDocumentation_path_in_directory :
    getFileDocumentation pathInDir = some (str "out/proventos-de-todos-os-membros-inativos")
    ∧ tokenOfBaseName pathInDir = str "proventos-de-todos-os-membros-inativos"
    ∧ getType (str "out/proventos-de-todos-os-membros-inativos") = str "indefinido"
    ∧ isActive (str "out/proventos-de-todos-os-membros-inativos") = true
    ∧ getType (tokenOfBaseName pathInDir) = str "membro"
    ∧ isActive (tokenOfBaseName pathInDir) = false
    ∧ Parse sampleLib [pathInDir]
        = some ([sampleEmployee "21" "Davi" "Promotor" "indefinido" true 400 4,
            sampleEmployee "22" "Eva" "Procurador" "indefinido" true 500 5], none) := by
  decide

theorem getType_cases (t : GoString) :
    (t = str "proventos-de-todos-os-membros-inativos" ∧ getType t = str "membro")
    ∨ (t = str "proventos-de-todos-os-servidores-inativos" ∧ getType t = str "servidor")
    ∨ (t = str "remuneracao-de-todos-os-membros-ativos" ∧ getType t = str "membro")
    ∨ (t = str "remuneracao-de-todos-os-servidores-atuvos" ∧ getType t = str "servidor")
    ∨ (t = str "valores-percebidos-por-todos-os-colaboradores" ∧ getType t = str "colaborador")
    ∨ (t = str "valores-percebidos-por-todos-os-pensionistas" ∧ getType t = str "pensionista")
    ∨ (t ∉ typeTokens ∧ getType t = str "indefinido") := by
  unfold getType
  split_ifs with h1 h2 h3 h4 h5 h6
  · exact Or.inl ⟨h1, rfl⟩
  · exact Or.inr (Or.inl ⟨h2, rfl⟩)
  · exact Or.inr (Or.inr (Or.inl ⟨h3, rfl⟩))
  · exact Or.inr (Or.inr (Or.inr (Or.inl ⟨h4, rfl⟩)))
  · exact Or.inr (Or.inr (Or.inr (Or.inr (Or.inl ⟨h5, rfl⟩))))
  · exact Or.inr (Or.inr (Or.inr (Or.inr (Or.inr (Or.inl ⟨h6, rfl⟩)))))
  · refine Or.inr (Or.inr (Or.inr (Or.inr (Or.inr (Or.inr ⟨?_, rfl⟩)))))
    simp only [typeTokens, List.mem_cons, List.mem_singleton, List.not_mem_nil, or_false]
    tauto

theorem isActive_cases (t : GoString) :
    (t ∈ inactiveTokens ∧ isActive t = false) ∨ (t ∉ inactiveTokens ∧ isActive t = true) := by
  unfold isActive
  simp only [inactiveTokens, List.mem_cons, List.mem_singleton, List.not_mem_nil, or_false]
  split_ifs with h1 h2 h3 h4 h5 <;> tauto

/-- C8: the employment-type table. getType gives membro exactly for the two tokens of
members, servidor exactly for the two tokens of servants (the active one spelled atuvos),
colaborador and pensionista exactly for their token, and indefinido exactly for every other
string, such as a token with another letter case, the spelling ativos, or one more character
before or after. -/
theorem getType_table (t : GoString) :
    (getType t = str "membro" ↔
      t = str "proventos-de-todos-os-membros-inativos"
        ∨ t = str "remuneracao-de-todos-os-membros-ativos")
    ∧ (getType t = str "servidor" ↔
      t = str "proventos-de-todos-os-servidores-inativos"
        ∨ t = str "remuneracao-de-todos-os-servidores-atuvos")
    ∧ (getType t = str "colaborador" ↔ t = str "valores-percebidos-por-todos-os-colaboradores")
    ∧ (getType t = str "pensionista" ↔ t = str "valores-percebidos-por-todos-os-pensionistas")
    ∧ (getType t = str "indefinido" ↔ t ∉ typeTokens)
    ∧ getType (str "remuneracao-de-todos-os-servidores-ativos") = str "indefinido"
    ∧ getType (str "Proventos-de-todos-os-membros-inativos") = str "indefinido"
    ∧ getType (str "VALORES-PERCEBIDOS-POR-TODOS-OS-PENSIONISTAS") = str "indefinido"
    ∧ getType (str " valores-percebidos-por-todos-os-colaboradores") = str "indefinido"
    ∧ getType (str "proventos-de-todos-os-membros-inativos-01") = str "indefinido"
    ∧ getType [] = str "indefinido" := by
  have hclosed : getType (str "remuneracao-de-todos-os-servidores-ativos") = str "indefinido"
      ∧ getType (str "Proventos-de-todos-os-membros-inativos") = str "indefinido"
      ∧ getType (str "VALORES-PERCEBIDOS-POR-TODOS-OS-PENSIONISTAS") = str "indefinido"
      ∧ getType (str " valores-percebidos-por-todos-os-colaboradores") = str "indefinido"
      ∧ getType (str "proventos-de-todos-os-membros-inativos-01") = str "indefinido"
      ∧ getType [] = str "indefinido" := by decide
  refine ⟨?_, ?_, ?_, ?_, ?_, hclosed⟩
  all_goals
    rcases getType_cases t with ⟨rfl, _⟩ | ⟨rfl, _⟩ | ⟨rfl, _⟩ | ⟨rfl, _⟩ | ⟨rfl, _⟩
      | ⟨rfl, _⟩ | ⟨hn, ht⟩
    · decide
    · decide
    · decide
    · decide
    · decide
    · decide
    · rw [ht]
      simp only [typeTokens, List.mem_cons, List.mem_singleton, List.not_mem_nil, or_false,
        not_or] at hn
      first
        | exact iff_of_true rfl (by
            simp only [typeTokens, List.mem_cons, List.mem_singleton, List.not_mem_nil,
              or_false, not_or]
            exact hn)
        | exact iff_of_false (by decide) (by tauto)

/-- C9: the active-status table. isActive is false exactly for the five tokens of inactive
members, inactive servants, earlier exercises, indemnities and pensioners, and true for every
other token. -/
theorem isActive_table (t : GoString) :
    (isActive t = false ↔
      t = str "proventos-de-todos-os-membros-inativos"
        ∨ t = str "proventos-de-todos-os-servidores-inativos"
        ∨ t = str "verbas-referentes-a-exercicios-anteriores"
        ∨ t = str "verbas-indenizatorias-e-outras-remuneracoes-temporarias"
        ∨ t = str "valores-percebidos-por-todos-os-pensionistas")
    ∧ (isActive t = true ↔
      ¬ (t = str "proventos-de-todos-os-membros-inativos"
        ∨ t = str "proventos-de-todos-os-servidores-inativos"
        ∨ t = str "verbas-referentes-a-exercicios-anteriores"
        ∨ t = str "verbas-indenizatorias-e-outras-remuneracoes-temporarias"
        ∨ t = str "valores-percebidos-por-todos-os-pensionistas")) := by
  rcases isActive_cases t with ⟨hm, ht⟩ | ⟨hm, ht⟩ <;>
    simp only [inactiveTokens, List.mem_cons, List.mem_singleton, List.not_mem_nil,
      or_false] at hm <;>
    rw [ht] <;> simp [hm]

/-- C10 as stated fails: the token of the payments of earlier exercises is none of the six
tokens of the employment-type table, its type is indefinido, and it is not active. -/
theorem unrecognized_token_not_active :
    str "verbas-referentes-a-exercicios-anteriores" ∉ typeTokens
    ∧ getType (str "verbas-referentes-a-exercicios-anteriores") = str "indefinido"
    ∧ isActive (str "verbas-referentes-a-exercicios-anteriores") = false
    ∧ ¬ (∀ t, t ∉ typeTokens → getType t = str "indefinido" ∧ isActive t = true) := by
  refine ⟨by decide, by decide, by decide, ?_⟩
  intro h
  have h2 := (h (str "verbas-referentes-a-exercicios-anteriores") (by decide)).2
  revert h2
  decide

/-- C10, amended: a token that is none of the six tokens of the employment-type table has
the type indefinido, and it is active unless it is one of the two tokens of the active-status
table that the type table does not have (earlier exercises, indemnities), which are not
active. -/
theorem classify_unrecognized (t : GoString) (h : t ∉ typeTokens) :
    getType t = str "indefinido"
    ∧ (isActive t = true ↔
      t ≠ str "verbas-referentes-a-exercicios-anteriores"
        ∧ t ≠ str "verbas-indenizatorias-e-outras-remuneracoes-temporarias")
    ∧ (isActive t = false ↔
      t = str "verbas-referentes-a-exercicios-anteriores"
        ∨ t = str "verbas-indenizatorias-e-outras-remuneracoes-temporarias") := by
  have ht : getType t = str "indefinido" := by
    rcases getType_cases t with ⟨rfl, _⟩ | ⟨rfl, _⟩ | ⟨rfl, _⟩ | ⟨rfl, _⟩ | ⟨rfl, _⟩
      | ⟨rfl, _⟩ | ⟨_, ht⟩
    · exact absurd h (by decide)
    · exact absurd h (by decide)
    · exact absurd h (by decide)
    · exact absurd h (by decide)
    · exact absurd h (by decide)
    · exact absurd h (by decide)
    · exact ht
  simp only [typeTokens, List.mem_cons, List.mem_singleton, List.not_mem_nil, or_false,
    not_or] at h
  refine ⟨ht, ?_, ?_⟩ <;>
    rcases isActive_cases t with ⟨hm, ha⟩ | ⟨hm, ha⟩ <;>
    simp only [inactiveTokens, List.mem_cons, List.mem_singleton, List.not_mem_nil,
      or_false] at hm <;>
    rw [ha] <;> simp <;> tauto

/-- A token of neither table, and the two tokens that only the active-status table has. -/
theorem classify_unrecognized_witness :
    str "folha-de-pagamento" ∉ typeTokens
    ∧ getType (str "folha-de-pagamento") = str "indefinido"
    ∧ isActive (str "folha-de-pagamento") = true
    ∧ isActive (str "verbas-indenizatorias-e-outras-remuneracoes-temporarias") = false := by
  have h := classify_unrecognized (str "folha-de-pagamento") (by decide)
  have h2 := classify_unrecognized
    (str "verbas-indenizatorias-e-outras-remuneracoes-temporarias") (by decide)
  exact ⟨by decide, h.1, h.2.1.2 (by decide), h2.2.2.2 (Or.inr rfl)⟩

/-! ## Classification of the records -/

theorem parseRow_ok_class (lib : Lib F X) (row : List GoString) (doc : GoString)
    (e : Employee F) (h : parseRow lib row doc = .ok e) :
    e.Type_ = getType doc ∧ e.Active = isActive doc := by
  simp only [parseRow] at h
  cases hd : getDiscounts lib row doc with
  | panic => rw [hd] at h; cases h
  | err e0 => rw [hd] at h; cases h
  | ok discounts =>
    rw [hd] at h
    simp only [] at h
    cases hi : getIncome lib row doc with
    | panic => rw [hi] at h; cases h
    | err e0 => rw [hi] at h; cases h
    | ok income =>
      rw [hi] at h
      simp only [] at h
      cases h0 : row[registerCodeIndex]? with
      | none => rw [h0] at h; cases h
      | some reg =>
        cases h1 : row[nameIndex]? with
        | none => rw [h0, h1] at h; cases h
        | some name =>
          cases h2 : row[roleIndex]? with
          | none => rw [h0, h1, h2] at h; cases h
          | some role =>
            rw [h0, h1, h2] at h
            cases h
            exact ⟨rfl, rfl⟩

theorem forall₂_mem_right {α β : Type} {R : α → β → Prop} :
    ∀ {l₁ : List α} {l₂ : List β}, List.Forall₂ R l₁ l₂ → ∀ b ∈ l₂, ∃ a ∈ l₁, R a b := by
  intro l₁ l₂ h
  induction h with
  | nil => intro b hb; cases hb
  | cons hab _ ih =>
    intro b hb
    rcases List.mem_cons.1 hb with rfl | hb
    · exact ⟨_, List.mem_cons_self _ _, hab⟩
    · obtain ⟨a, ha, hr⟩ := ih b hb
      exact ⟨a, List.mem_cons_of_mem _ ha, hr⟩

theorem parseFile_ok_class (lib : Lib F X) (path : GoString) (es : List (Employee F))
    (h : parseFile lib path = .ok es) :
    ∃ doc, getFileDocumentation path = some doc ∧
      ∀ e ∈ es, e.Type_ = getType doc ∧ e.Active = isActive doc := by
  simp only [parseFile] at h
  cases hdoc : getFileDocumentation path with
  | none => rw [hdoc] at h; cases h
  | some doc =>
    rw [hdoc] at h
    simp only [] at h
    cases hopen : lib.OpenFile path with
    | error err => rw [hopen] at h; cases h
    | ok file =>
      rw [hopen] at h
      simp only [] at h
      obtain ⟨es', hes, hf⟩ := (extractRows_ok_iff lib doc _ [] es).1 h
      simp only [List.nil_append] at hes
      subst hes
      refine ⟨doc, rfl, ?_⟩
      intro e he
      obtain ⟨row, _, hrow⟩ := forall₂_mem_right hf e he
      exact parseRow_ok_class lib row doc e hrow

theorem fileLoop_ok_class (lib : Lib F X) :
    ∀ (paths : List GoString) (acc es : List (Employee F)),
      fileLoop lib paths acc = some (es, none) →
      ∀ e ∈ es, e ∈ acc ∨ ∃ path ∈ paths, ∃ doc, getFileDocumentation path = some doc ∧
        e.Type_ = getType doc ∧ e.Active = isActive doc := by
  intro paths
  induction paths with
  | nil =>
    intro acc es h e he
    simp only [fileLoop, Option.some.injEq, Prod.mk.injEq, and_true] at h
    subst h
    exact Or.inl he
  | cons path rest ih =>
    intro acc es h e he
    rw [fileLoop_cons] at h
    cases hp : parseFile lib path with
    | panic => rw [hp] at h; cases h
    | err e0 => rw [hp] at h; simp at h
    | ok es2 =>
      rw [hp] at h
      simp only [] at h
      rcases ih _ es h e he with hacc | ⟨p, hpm, doc, hdoc, hc⟩
      · rcases List.mem_append.1 hacc with ha | h2
        · exact Or.inl ha
        · obtain ⟨doc, hdoc, hall⟩ := parseFile_ok_class lib path es2 hp
          exact Or.inr ⟨path, List.mem_cons_self _ _, doc, hdoc, hall e h2⟩
      · exact Or.inr ⟨p, List.mem_cons_of_mem _ hpm, doc, hdoc, hc⟩

/-- C11: every record that Parse produces comes from a file of the list and has the type
getType(token) and the flag isActive(token) of the token of that file, whatever its row
contains; and the file proventos-de-todos-os-membros-inativos-01-2020.xlsx with three header
rows, two data rows that extract and one summary row gives exactly two records, each a membro
and not active. -/
theorem Parse_records_classified (lib : Lib F X) (paths : List GoString)
    (es : List (Employee F)) :
    (Parse lib paths = some (es, none) →
      ∀ e ∈ es, ∃ path ∈ paths, ∃ doc, getFileDocumentation path = some doc ∧
        e.Type_ = getType doc ∧ e.Active = isActive doc)
    ∧ (∀ path doc, Parse lib [path] = some (es, none) → getFileDocumentation path = some doc →
      ∀ e ∈ es, e.Type_ = getType doc ∧ e.Active = isActive doc)
    ∧ (∀ (file : X) (h1 h2 h3 d1 d2 s : List GoString) (e1 e2 : Employee F),
      lib.OpenFile (str "proventos-de-todos-os-membros-inativos-01-2020.xlsx") = .ok file →
      lib.GetRows file sheetName = [h1, h2, h3, d1, d2, s] →
      parseRow lib d1 (str "proventos-de-todos-os-membros-inativos") = .ok e1 →
      parseRow lib d2 (str "proventos-de-todos-os-membros-inativos") = .ok e2 →
      Parse lib [str "proventos-de-todos-os-membros-inativos-01-2020.xlsx"]
          = some ([e1, e2], none)
        ∧ e1.Type_ = str "membro" ∧ e1.Active = false
        ∧ e2.Type_ = str "membro" ∧ e2.Active = false) := by
  refine ⟨?_, ?_, ?_⟩
  · intro h e he
    rcases fileLoop_ok_class lib paths [] es h e he with hnil | hex
    · cases hnil
    · exact hex
  · intro path doc h hdoc e he
    rcases fileLoop_ok_class lib [path] [] es h e he with hnil | ⟨p, hp, d, hd, hc⟩
    · cases hnil
    · simp only [List.mem_singleton] at hp
      subst hp
      rw [hdoc] at hd
      cases hd
      exact hc
  · intro file h1 h2 h3 d1 d2 s e1 e2 hopen hrows hd1 hd2
    have hdoc : getFileDocumentation (str "proventos-de-todos-os-membros-inativos-01-2020.xlsx")
        = some (str "proventos-de-todos-os-membros-inativos") := by decide
    have ht : getType (str "proventos-de-todos-os-membros-inativos") = str "membro" := by decide
    have ha : isActive (str "proventos-de-todos-os-membros-inativos") = false := by decide
    have hc1 := parseRow_ok_class lib d1 _ e1 hd1
    have hc2 := parseRow_ok_class lib d2 _ e2 hd2
    rw [ht, ha] at hc1 hc2
    refine ⟨?_, hc1.1, hc1.2, hc2.1, hc2.2⟩
    rw [Parse_singleton lib _ _ file hdoc hopen, hrows]
    simp [dataRows, extractRows, hd1, hd2]

/-- The file `pathB` of the sample files is the file of the scenario. -/
theorem Parse_records_classified_witness :
    Parse sampleLib [pathA, pathB] = some (employeesA ++ employeesB, none)
    ∧ (∀ e ∈ employeesA ++ employeesB, ∃ path ∈ [pathA, pathB], ∃ doc,
        getFileDocumentation path = some doc ∧
          e.Type_ = getType doc ∧ e.Active = isActive doc)
    ∧ Parse sampleLib [str "proventos-de-todos-os-membros-inativos-01-2020.xlsx"]
        = some (employeesB, none)
    ∧ (∀ e ∈ employeesB, e.Type_ = str "membro" ∧ e.Active = false)
    ∧ (∀ e ∈ employeesB, e.Type_ = getType (str "proventos-de-todos-os-membros-inativos")
        ∧ e.Active = isActive (str "proventos-de-todos-os-membros-inativos")) := by
  have h := Parse_records_classified sampleLib [pathA, pathB] (employeesA ++ employeesB)
  have hB := (Parse_records_classified sampleLib [pathB] employeesB).2.1 pathB
    (str "proventos-de-todos-os-membros-inativos") (by decide) (by decide)
  have hs := h.2.2 (oneSheet rowsB) _ _ _ _ _ _
    (sampleEmployee "21" "Davi" "Promotor" "membro" false 400 4)
    (sampleEmployee "22" "Eva" "Procurador" "membro" false 500 5) rfl rfl (by decide) (by decide)
  refine ⟨by decide, h.1 (by decide), hs.1, ?_, hB⟩
  intro e he
  simp only [employeesB, List.mem_cons, List.mem_singleton, List.not_mem_nil, or_false] at he
  rcases he with rfl | rfl
  · exact ⟨hs.2.1, hs.2.2.1⟩
  · exact ⟨hs.2.2.2.1, hs.2.2.2.2⟩

/-! ## Sheets with four or fewer rows -/

theorem dataRows_eq_nil (rows : List (List GoString)) (h : rows.length ≤ 4) :
    dataRows rows = [] := by
  apply List.eq_nil_of_length_eq_zero
  rw [dataRows_length]
  omega

/-- C12 as stated fails: the file a.xlsx opens and its sheet has no rows, yet Parse of it does
not return zero records: the name has six bytes, so the cut of its last 13 bytes panics before
the file is opened. -/
theorem Parse_few_rows_short_name_panics :
    edgeLib.OpenFile pathShort = .ok (oneSheet [])
    ∧ (edgeLib.GetRows (oneSheet []) sheetName).length ≤ 4
    ∧ pathShort.length = 6
    ∧ Parse edgeLib [pathShort] = none
    ∧ Parse edgeLib [pathShort] ≠ some ([], none) :=
  ⟨rfl, by decide, by decide, by decide, by decide⟩

/-- C12, amended: a sheet with four or fewer rows gives no record and no failure, whatever its
rows contain, when the name of the file has at least 13 bytes. The row loop returns the
employees it was given, for every token; and for such a name Parse of the file alone returns no
record and no error, and the file can be taken out of any list without changing what Parse
returns. -/
theorem Parse_few_rows (lib : Lib F X) (pre post : List GoString) (path : GoString) (file : X)
    (hopen : lib.OpenFile path = .ok file)
    (hfew : (lib.GetRows file sheetName).length ≤ 4) :
    (∀ (doc : GoString) (acc : List (Employee F)),
      rowLoop lib doc (lib.GetRows file sheetName).length 0 (lib.GetRows file sheetName) acc
        = .ok acc)
    ∧ (13 ≤ path.length →
      Parse lib [path] = some ([], none)
        ∧ Parse lib (pre ++ path :: post) = Parse lib (pre ++ post)) := by
  refine ⟨?_, ?_⟩
  · intro doc acc
    rw [rowLoop_eq, dataRows_eq_nil _ hfew]
    rfl
  · intro hname
    have hfile : parseFile lib path = .ok [] := by
      simp only [parseFile, getFileDocumentation_of_le path hname, hopen,
        dataRows_eq_nil _ hfew, extractRows]
    constructor
    · rw [Parse, fileLoop_cons, hfile]
      rfl
    · rw [Parse, Parse, fileLoop_append, fileLoop_append]
      cases fileLoop lib pre [] with
      | none => rfl
      | some r =>
        obtain ⟨es, oe⟩ := r
        cases oe with
        | some e => rfl
        | none =>
          simp only []
          rw [fileLoop_cons, hfile]
          simp only [List.append_nil]

/-- The file `pathFew`, whose four rows are empty, short or not numeric. -/
theorem Parse_few_rows_witness :
    edgeLib.OpenFile pathFew = .ok (oneSheet rowsFew)
    ∧ (edgeLib.GetRows (oneSheet rowsFew) sheetName).length ≤ 4
    ∧ rowLoop edgeLib (str "valores-percebidos-por-todos-os-colaboradores")
        (edgeLib.GetRows (oneSheet rowsFew) sheetName).length 0
        (edgeLib.GetRows (oneSheet rowsFew) sheetName) employeesA = .ok employeesA
    ∧ 13 ≤ pathFew.length
    ∧ Parse edgeLib [pathFew] = some ([], none)
    ∧ Parse edgeLib ([pathA] ++ pathFew :: [pathB]) = Parse edgeLib ([pathA] ++ [pathB])
    ∧ Parse edgeLib ([pathA] ++ [pathB]) = some (employeesA ++ employeesB, none) := by
  have h := Parse_few_rows edgeLib [pathA] [pathB] pathFew (oneSheet rowsFew) rfl (by decide)
  exact ⟨rfl, by decide, h.1 _ _, by decide, (h.2 (by decide)).1, (h.2 (by decide)).2,
    by decide⟩

/-! ## Totality of the classification -/

/-- C13 as stated fails: the name a.xlsx has six bytes, the cut of its last 13 bytes panics,
so it has no classification and Parse of it panics although the file opens; the same holds
for the empty name. -/
theorem classify_short_name_panics :
    getFileDocumentation pathShort = none
    ∧ classify pathShort = none
    ∧ classify [] = none
    ∧ edgeLib.OpenFile pathShort = .ok (oneSheet [])
    ∧ Parse edgeLib [pathShort] = none
    ∧ ¬ (∀ path : GoString, ∃ type active, classify path = some (type, active)) := by
  refine ⟨by decide, by decide, by decide, rfl, by decide, ?_⟩
  intro h
  obtain ⟨type, active, hc⟩ := h []
  have hnone : classify [] = none := by decide
  rw [hnone] at hc
  cases hc

/-- C13, amended: the classification of a path returns a result exactly when the path has at
least 13 bytes; the result is then the type and the flag of the path without its last 13
bytes, and the two tables give a value for every token. -/
theorem classify_total_iff (path : GoString) :
    ((∃ type active, classify path = some (type, active)) ↔ 13 ≤ path.length)
    ∧ (13 ≤ path.length →
        getFileDocumentation path = some (path.take (path.length - 13))
        ∧ classify path = some (getType (path.take (path.length - 13)),
            isActive (path.take (path.length - 13))))
    ∧ (path.length < 13 → getFileDocumentation path = none ∧ classify path = none)
    ∧ (∀ token : GoString, ∃ type active, getType token = type ∧ isActive token = active) := by
  have hlt : path.length < 13 → getFileDocumentation path = none := by
    intro h
    simp only [getFileDocumentation]
    rw [if_pos (by omega)]
  refine ⟨?_, ?_, ?_, ?_⟩
  · constructor
    · rintro ⟨type, active, hc⟩
      by_contra hn
      simp only [classify, hlt (by omega)] at hc
      cases hc
    · intro h
      exact ⟨getType (path.take (path.length - 13)), isActive (path.take (path.length - 13)),
        by simp only [classify, getFileDocumentation_of_le path h]⟩
  · intro h
    exact ⟨getFileDocumentation_of_le path h,
      by simp only [classify, getFileDocumentation_of_le path h]⟩
  · intro h
    exact ⟨hlt h, by simp only [classify, hlt h]⟩
  · intro token
    exact ⟨_, _, rfl, rfl⟩

/-- The name of `pathB` has 13 bytes or more and that of `pathShort` has fewer. -/
theorem classify_total_iff_witness :
    13 ≤ pathB.length
    ∧ classify pathB = some (str "membro", false)
    ∧ pathShort.length < 13
    ∧ classify pathShort = none := by
  have h := (classify_total_iff pathB).2.1 (by decide)
  have h2 := (classify_total_iff pathShort).2.2.1 (by decide)
  exact ⟨by decide, h.2.trans (by decide), by decide, h2.2⟩

/-! ## Numeric fields and the order of their coercion -/

theorem parseCell_ok (lib : Lib F X) (row : List GoString) (index : Nat) (what doc : GoString)
    (h : index < row.length) (v : F) (hv : lib.ParseFloat row[index] = .ok v) :
    parseCell lib row index what doc = .ok v := by
  rw [parseCell_of_lt lib row index what doc h, hv]

theorem parseCell_error (lib : Lib F X) (row : List GoString) (index : Nat) (what doc : GoString)
    (h : index < row.length) (err : GoString) (hv : lib.ParseFloat row[index] = .error err) :
    parseCell lib row index what doc
      = .err (what ++ str " for document " ++ doc ++ str ": " ++ lib.quote err) := by
  rw [parseCell_of_lt lib row index what doc h, hv]

/-- C14: a row of at least 15 cells whose seven numeric cells are the string 0 is built
successfully, and every numeric field of the record (discount total, ceil retention, income
tax, pension contribution, income total, wage, perks total) is the value that the coercion
gives for 0, with no other income. -/
theorem parseRow_zero (lib : Lib F X) (row : List GoString) (doc : GoString) (zero : F)
    (hlen : 15 ≤ row.length) (hz : lib.ParseFloat (str "0") = .ok zero)
    (h4 : row[4] = str "0") (h6 : row[6] = str "0") (h10 : row[10] = str "0")
    (h11 : row[11] = str "0") (h12 : row[12] = str "0") (h13 : row[13] = str "0")
    (h14 : row[14] = str "0") :
    parseRow lib row doc = .ok
      { Reg := row[0]
        Name := row[1]
        Role := row[2]
        Type_ := getType doc
        Workplace := str "mppe"
        Active := isActive doc
        Income := some
          { Total := zero, Wage := some zero, Perks := some { Total := zero }, Other := none }
        Discounts := some
          { Total := zero
            CeilRetention := some zero
            IncomeTax := some zero
            PrevContribution := some zero } } := by
  simp only [parseRow, getDiscounts, getIncome, getPerks, totalDiscountIndex,
    ceilRetentionIndex, incomeTaxIndex, prevContributionIndex, totalIncomeDetailsIndex,
    wageIndex, totalPerkIndex, registerCodeIndex, nameIndex, roleIndex]
  rw [parseCell_ok lib row 14 _ doc (by omega) zero (by rw [h14]; exact hz),
    parseCell_ok lib row 13 _ doc (by omega) zero (by rw [h13]; exact hz),
    parseCell_ok lib row 12 _ doc (by omega) zero (by rw [h12]; exact hz),
    parseCell_ok lib row 11 _ doc (by omega) zero (by rw [h11]; exact hz),
    parseCell_ok lib row 10 _ doc (by omega) zero (by rw [h10]; exact hz),
    parseCell_ok lib row 4 _ doc (by omega) zero (by rw [h4]; exact hz),
    parseCell_ok lib row 6 _ doc (by omega) zero (by rw [h6]; exact hz)]
  simp only []
  rw [List.getElem?_eq_getElem (show 0 < row.length by omega),
    List.getElem?_eq_getElem (show 1 < row.length by omega),
    List.getElem?_eq_getElem (show 2 < row.length by omega)]

/-- The row `zeroRow` under the coercion that reads 0 as the integer zero. -/
theorem parseRow_zero_witness :
    15 ≤ zeroRow.length
    ∧ digitsParseFloat (str "0") = .ok 0
    ∧ parseRow sampleLib zeroRow (str "remuneracao-de-todos-os-membros-ativos")
      = .ok (sampleEmployee "41" "Ivo" "Promotor" "membro" true 0 0) :=
  ⟨by decide, rfl,
    (parseRow_zero sampleLib zeroRow (str "remuneracao-de-todos-os-membros-ativos") 0
      (by decide) rfl (by decide) (by decide) (by decide) (by decide) (by decide) (by decide)
      (by decide)).trans (by decide)⟩

theorem parseCell_err_contains (lib : Lib F X) (row : List GoString) (index : Nat)
    (what doc e : GoString) (h : parseCell lib row index what doc = .err e) :
    ∃ a b, e = a ++ doc ++ b := by
  simp only [parseCell] at h
  cases hc : row[index]? with
  | none => rw [hc] at h; cases h
  | some cell =>
    rw [hc] at h
    simp only [] at h
    cases hp : lib.ParseFloat cell with
    | ok v => rw [hp] at h; cases h
    | error err =>
      rw [hp] at h
      simp only [Res.err.injEq] at h
      exact ⟨what ++ str " for document ", str ": " ++ lib.quote err, by
        rw [← h]; simp only [List.append_assoc]⟩

theorem parseRow_err_contains (lib : Lib F X) (row : List GoString) (doc e : GoString)
    (h : parseRow lib row doc = .err e) : ∃ a b, e = a ++ doc ++ b := by
  simp only [parseRow, getDiscounts, getIncome, getPerks] at h
  cases h14 : parseCell lib row totalDiscountIndex
      (str "error on parsing total discount from string to float64") doc with
  | panic => rw [h14] at h; cases h
  | err e0 => rw [h14] at h; cases h; exact parseCell_err_contains lib row _ _ doc _ h14
  | ok v14 =>
  rw [h14] at h
  simp only [] at h
  cases h13 : parseCell lib row ceilRetentionIndex
      (str "error on parsing ceil retention from string to float64") doc with
  | panic => rw [h13] at h; cases h
  | err e0 => rw [h13] at h; cases h; exact parseCell_err_contains lib row _ _ doc _ h13
  | ok v13 =>
  rw [h13] at h
  simp only [] at h
  cases h12 : parseCell lib row incomeTaxIndex
      (str "error on parsing income tax from string to float64") doc with
  | panic => rw [h12] at h; cases h
  | err e0 => rw [h12] at h; cases h; exact parseCell_err_contains lib row _ _ doc _ h12
  | ok v12 =>
  rw [h12] at h
  simp only [] at h
  cases h11 : parseCell lib row prevContributionIndex
      (str "error on parsing prev contribution from string to float64") doc with
  | panic => rw [h11] at h; cases h
  | err e0 => rw [h11] at h; cases h; exact parseCell_err_contains lib row _ _ doc _ h11
  | ok v11 =>
  rw [h11] at h
  simp only [] at h
  cases h10 : parseCell lib row totalIncomeDetailsIndex
      (str "error on parsing total of income details from string to float64") doc with
  | panic => rw [h10] at h; cases h
  | err e0 => rw [h10] at h; cases h; exact parseCell_err_contains lib row _ _ doc _ h10
  | ok v10 =>
  rw [h10] at h
  simp only [] at h
  cases h4 : parseCell lib row wageIndex
      (str "error on parsing wage of income details from string to float64") doc with
  | panic => rw [h4] at h; cases h
  | err e0 => rw [h4] at h; cases h; exact parseCell_err_contains lib row _ _ doc _ h4
  | ok v4 =>
  rw [h4] at h
  simp only [] at h
  cases h6 : parseCell lib row totalPerkIndex
      (str "error on parsing total of perks from string to float64") doc with
  | panic => rw [h6] at h; cases h
  | err e0 => rw [h6] at h; cases h; exact parseCell_err_contains lib row _ _ doc _ h6
  | ok v6 =>
  rw [h6] at h
  simp only [] at h
  cases h0 : row[registerCodeIndex]? with
  | none => rw [h0] at h; cases h
  | some reg =>
    cases h1 : row[nameIndex]? with
    | none => rw [h0, h1] at h; cases h
    | some name =>
      cases h2 : row[roleIndex]? with
      | none => rw [h0, h1, h2] at h; cases h
      | some role => rw [h0, h1, h2] at h; cases h

/-- C15: on a row of at least 15 cells, the error of the row is the one of the first cell that
fails in the order discount total (14), ceil retention (13), income tax (12), pension
contribution (11), income total (10), wage (4), perks total (6), whatever the later cells
hold; its text names that field, and every error of a row contains the token of the file. -/
theorem parseRow_first_error (lib : Lib F X) (row : List GoString) (doc err : GoString)
    (hlen : 15 ≤ row.length) :
    (lib.ParseFloat row[14] = .error err →
        parseRow lib row doc = .err
          (str "error on parsing total discount from string to float64 for document " ++ doc
            ++ str ": " ++ lib.quote err))
    ∧ (∀ v14 : F, lib.ParseFloat row[14] = .ok v14 →
        lib.ParseFloat row[13] = .error err →
        parseRow lib row doc = .err
          (str "error on parsing ceil retention from string to float64 for document " ++ doc
            ++ str ": " ++ lib.quote err))
    ∧ (∀ v14 v13 : F, lib.ParseFloat row[14] = .ok v14 →
        lib.ParseFloat row[13] = .ok v13 →
        lib.ParseFloat row[12] = .error err →
        parseRow lib row doc = .err
          (str "error on parsing income tax from string to float64 for document " ++ doc
            ++ str ": " ++ lib.quote err))
    ∧ (∀ v14 v13 v12 : F, lib.ParseFloat row[14] = .ok v14 →
        lib.ParseFloat row[13] = .ok v13 →
        lib.ParseFloat row[12] = .ok v12 →
        lib.ParseFloat row[11] = .error err →
        parseRow lib row doc = .err
          (str "error on parsing prev contribution from string to float64 for document " ++ doc
            ++ str ": " ++ lib.quote err))
    ∧ (∀ v14 v13 v12 v11 : F, lib.ParseFloat row[14] = .ok v14 →
        lib.ParseFloat row[13] = .ok v13 →
        lib.ParseFloat row[12] = .ok v12 →
        lib.ParseFloat row[11] = .ok v11 →
        lib.ParseFloat row[10] = .error err →
        parseRow lib row doc = .err
          (str "error on parsing total of income details from string to float64 for document " ++ doc
            ++ str ": " ++ lib.quote err))
    ∧ (∀ v14 v13 v12 v11 v10 : F, lib.ParseFloat row[14] = .ok v14 →
        lib.ParseFloat row[13] = .ok v13 →
        lib.ParseFloat row[12] = .ok v12 →
        lib.ParseFloat row[11] = .ok v11 →
        lib.ParseFloat row[10] = .ok v10 →
        lib.ParseFloat row[4] = .error err →
        parseRow lib row doc = .err
          (str "error on parsing wage of income details from string to float64 for document " ++ doc
            ++ str ": " ++ lib.quote err))
    ∧ (∀ v14 v13 v12 v11 v10 v4 : F, lib.ParseFloat row[14] = .ok v14 →
        lib.ParseFloat row[13] = .ok v13 →
        lib.ParseFloat row[12] = .ok v12 →
        lib.ParseFloat row[11] = .ok v11 →
        lib.ParseFloat row[10] = .ok v10 →
        lib.ParseFloat row[4] = .ok v4 →
        lib.ParseFloat row[6] = .error err →
        parseRow lib row doc = .err
          (str "error on parsing total of perks from string to float64 for document " ++ doc
            ++ str ": " ++ lib.quote err))
    ∧ (∀ e, parseRow lib row doc = .err e → ∃ a b, e = a ++ doc ++ b) := by
  have hw14 : str "error on parsing total discount from string to float64" ++ str " for document "
      = str "error on parsing total discount from string to float64 for document " := by decide
  have hw13 : str "error on parsing ceil retention from string to float64" ++ str " for document "
      = str "error on parsing ceil retention from string to float64 for document " := by decide
  have hw12 : str "error on parsing income tax from string to float64" ++ str " for document "
      = str "error on parsing income tax from string to float64 for document " := by decide
  have hw11 : str "error on parsing prev contribution from string to float64" ++ str " for document "
      = str "error on parsing prev contribution from string to float64 for document " := by decide
  have hw10 : str "error on parsing total of income details from string to float64" ++ str " for document "
      = str "error on parsing total of income details from string to float64 for document " := by decide
  have hw4 : str "error on parsing wage of income details from string to float64" ++ str " for document "
      = str "error on parsing wage of income details from string to float64 for document " := by decide
  have hw6 : str "error on parsing total of perks from string to float64" ++ str " for document "
      = str "error on parsing total of perks from string to float64 for document " := by decide
  refine ⟨?_, ?_, ?_, ?_, ?_, ?_, ?_, fun e h => parseRow_err_contains lib row doc e h⟩
  · intro herr
    simp only [parseRow, getDiscounts, getIncome, getPerks, totalDiscountIndex,
      ceilRetentionIndex, incomeTaxIndex, prevContributionIndex, totalIncomeDetailsIndex,
      wageIndex, totalPerkIndex]
    rw [parseCell_error lib row 14 _ doc (by omega) err herr]
    simp only [hw14]
  · intro v14 h14 herr
    simp only [parseRow, getDiscounts, getIncome, getPerks, totalDiscountIndex,
      ceilRetentionIndex, incomeTaxIndex, prevContributionIndex, totalIncomeDetailsIndex,
      wageIndex, totalPerkIndex]
    rw [parseCell_ok lib row 14 _ doc (by omega) v14 h14,
      parseCell_error lib row 13 _ doc (by omega) err herr]
    simp only [hw13]
  · intro v14 v13 h14 h13 herr
    simp only [parseRow, getDiscounts, getIncome, getPerks, totalDiscountIndex,
      ceilRetentionIndex, incomeTaxIndex, prevContributionIndex, totalIncomeDetailsIndex,
      wageIndex, totalPerkIndex]
    rw [parseCell_ok lib row 14 _ doc (by omega) v14 h14,
      parseCell_ok lib row 13 _ doc (by omega) v13 h13,
      parseCell_error lib row 12 _ doc (by omega) err herr]
    simp only [hw12]
  · intro v14 v13 v12 h14 h13 h12 herr
    simp only [parseRow, getDiscounts, getIncome, getPerks, totalDiscountIndex,
      ceilRetentionIndex, incomeTaxIndex, prevContributionIndex, totalIncomeDetailsIndex,
      wageIndex, totalPerkIndex]
    rw [parseCell_ok lib row 14 _ doc (by omega) v14 h14,
      parseCell_ok lib row 13 _ doc (by omega) v13 h13,
      parseCell_ok lib row 12 _ doc (by omega) v12 h12,
      parseCell_error lib row 11 _ doc (by omega) err herr]
    simp only [hw11]
  · intro v14 v13 v12 v11 h14 h13 h12 h11 herr
    simp only [parseRow, getDiscounts, getIncome, getPerks, totalDiscountIndex,
      ceilRetentionIndex, incomeTaxIndex, prevContributionIndex, totalIncomeDetailsIndex,
      wageIndex, totalPerkIndex]
    rw [parseCell_ok lib row 14 _ doc (by omega) v14 h14,
      parseCell_ok lib row 13 _ doc (by omega) v13 h13,
      parseCell_ok lib row 12 _ doc (by omega) v12 h12,
      parseCell_ok lib row 11 _ doc (by omega) v11 h11,
      parseCell_error lib row 10 _ doc (by omega) err herr]
    simp only [hw10]
  · intro v14 v13 v12 v11 v10 h14 h13 h12 h11 h10 herr
    simp only [parseRow, getDiscounts, getIncome, getPerks, totalDiscountIndex,
      ceilRetentionIndex, incomeTaxIndex, prevContributionIndex, totalIncomeDetailsIndex,
      wageIndex, totalPerkIndex]
    rw [parseCell_ok lib row 14 _ doc (by omega) v14 h14,
      parseCell_ok lib row 13 _ doc (by omega) v13 h13,
      parseCell_ok lib row 12 _ doc (by omega) v12 h12,
      parseCell_ok lib row 11 _ doc (by omega) v11 h11,
      parseCell_ok lib row 10 _ doc (by omega) v10 h10,
      parseCell_error lib row 4 _ doc (by omega) err herr]
    simp only [hw4]
  · intro v14 v13 v12 v11 v10 v4 h14 h13 h12 h11 h10 h4 herr
    simp only [parseRow, getDiscounts, getIncome, getPerks, totalDiscountIndex,
      ceilRetentionIndex, incomeTaxIndex, prevContributionIndex, totalIncomeDetailsIndex,
      wageIndex, totalPerkIndex]
    rw [parseCell_ok lib row 14 _ doc (by omega) v14 h14,
      parseCell_ok lib row 13 _ doc (by omega) v13 h13,
      parseCell_ok lib row 12 _ doc (by omega) v12 h12,
      parseCell_ok lib row 11 _ doc (by omega) v11 h11,
      parseCell_ok lib row 10 _ doc (by omega) v10 h10,
      parseCell_ok lib row 4 _ doc (by omega) v4 h4,
      parseCell_error lib row 6 _ doc (by omega) err herr]
    simp only [hw6]

/-- The row `threeBadRow`, where the discount total, the income tax and the wage fail: the
error is that of the discount total; and the row `twoBadRow`, where the income tax and the
wage fail: the error is that of the income tax. -/
theorem parseRow_first_error_witness :
    15 ≤ threeBadRow.length
    ∧ parseRow sampleLib threeBadRow (str "remuneracao-de-todos-os-membros-ativos") = .err
        (str "error on parsing total discount from string to float64 for document "
          ++ str "remuneracao-de-todos-os-membros-ativos" ++ str ": "
          ++ sampleLib.quote (str "strconv.ParseFloat: parsing: invalid syntax"))
    ∧ parseRow sampleLib twoBadRow (str "remuneracao-de-todos-os-membros-ativos") = .err
        (str "error on parsing income tax from string to float64 for document "
          ++ str "remuneracao-de-todos-os-membros-ativos" ++ str ": "
          ++ sampleLib.quote (str "strconv.ParseFloat: parsing: invalid syntax"))
    ∧ (∀ e, parseRow sampleLib twoBadRow (str "remuneracao-de-todos-os-membros-ativos") = .err e →
        ∃ a b, e = a ++ str "remuneracao-de-todos-os-membros-ativos" ++ b) := by
  have h3 := parseRow_first_error sampleLib threeBadRow
    (str "remuneracao-de-todos-os-membros-ativos")
    (str "strconv.ParseFloat: parsing: invalid syntax") (by decide)
  have h2 := parseRow_first_error sampleLib twoBadRow
    (str "remuneracao-de-todos-os-membros-ativos")
    (str "strconv.ParseFloat: parsing: invalid syntax") (by decide)
  exact ⟨by decide, h3.1 rfl, h2.2.2.1 1 1 rfl rfl rfl, h2.2.2.2.2.2.2.2⟩

/-! ## Unused columns -/

/-- C19: two rows that agree on the cells 0, 1, 2, 4, 6, 10, 11, 12, 13 and 14 extract to the
same outcome under the same token, the same record or the same error, whatever the cells 3, 5,
7, 8, 9 and the cells from 15 on hold; the rows need not even have 15 cells. -/
theorem parseRow_unused_columns (lib : Lib F X) (row row' : List GoString) (doc : GoString)
    (h : ∀ k ∈ [0, 1, 2, 4, 6, 10, 11, 12, 13, 14], row[k]? = row'[k]?) :
    parseRow lib row doc = parseRow lib row' doc := by
  have h0 := h 0 (by simp)
  have h1 := h 1 (by simp)
  have h2 := h 2 (by simp)
  have h4 := h 4 (by simp)
  have h6 := h 6 (by simp)
  have h10 := h 10 (by simp)
  have h11 := h 11 (by simp)
  have h12 := h 12 (by simp)
  have h13 := h 13 (by simp)
  have h14 := h 14 (by simp)
  simp only [parseRow, getDiscounts, getIncome, getPerks, parseCell, totalDiscountIndex,
    ceilRetentionIndex, incomeTaxIndex, prevContributionIndex, totalIncomeDetailsIndex,
    wageIndex, totalPerkIndex, registerCodeIndex, nameIndex, roleIndex,
    h0, h1, h2, h4, h6, h10, h11, h12, h13, h14]

/-- The first data row of `pathA` and `otherUnusedRow`, and `threeBadRow` with one more cell. -/
theorem parseRow_unused_columns_witness :
    15 ≤ (sampleRow "11" "Ana" "Promotor" "100" "1").length ∧ 15 ≤ otherUnusedRow.length
    ∧ sampleRow "11" "Ana" "Promotor" "100" "1" ≠ otherUnusedRow
    ∧ parseRow sampleLib (sampleRow "11" "Ana" "Promotor" "100" "1")
        (str "remuneracao-de-todos-os-membros-ativos")
      = parseRow sampleLib otherUnusedRow (str "remuneracao-de-todos-os-membros-ativos")
    ∧ parseRow sampleLib threeBadRow (str "remuneracao-de-todos-os-membros-ativos")
      = parseRow sampleLib (threeBadRow ++ [str "more"])
          (str "remuneracao-de-todos-os-membros-ativos") :=
  ⟨by decide, by decide, by decide,
    parseRow_unused_columns sampleLib _ _ _ (by decide),
    parseRow_unused_columns sampleLib _ _ _ (by decide)⟩

/-! ## The first error of a run -/

theorem extractRows_err_split (lib : Lib F X) (doc : GoString) :
    ∀ (rs : List (List GoString)) (acc : List (Employee F)) (e : GoString),
      extractRows lib doc rs acc = .err e →
      ∃ before row after es1, rs = before ++ row :: after ∧
        List.Forall₂ (fun r employee => parseRow lib r doc = .ok employee) before es1 ∧
        parseRow lib row doc = .err e := by
  intro rs
  induction rs with
  | nil => intro acc e h; simp [extractRows] at h
  | cons r rest ih =>
    intro acc e h
    simp only [extractRows] at h
    cases hr : parseRow lib r doc with
    | panic => rw [hr] at h; cases h
    | err e0 =>
      rw [hr] at h
      cases h
      exact ⟨[], r, rest, [], rfl, List.Forall₂.nil, hr⟩
    | ok employee =>
      rw [hr] at h
      obtain ⟨before, row, after, es1, hrs, hf, herr⟩ := ih _ e h
      exact ⟨r :: before, row, after, employee :: es1, by rw [hrs]; rfl,
        List.Forall₂.cons hr hf, herr⟩

theorem extractRows_err_of_split (lib : Lib F X) (doc : GoString)
    (before after : List (List GoString)) (row : List GoString) (es1 : List (Employee F))
    (e : GoString)
    (hf : List.Forall₂ (fun r employee => parseRow lib r doc = .ok employee) before es1)
    (herr : parseRow lib row doc = .err e) :
    extractRows lib doc (before ++ row :: after) [] = .err e := by
  rw [extractRows_append, (extractRows_ok_iff lib doc before [] ([] ++ es1)).2 ⟨es1, rfl, hf⟩]
  simp only [extractRows, herr]

theorem fileLoop_err_split (lib : Lib F X) :
    ∀ (paths : List GoString) (acc es : List (Employee F)) (e : GoString),
      fileLoop lib paths acc = some (es, some e) →
      ∃ pre path post acc', paths = pre ++ path :: post ∧
        fileLoop lib pre acc = some (acc', none) ∧ parseFile lib path = .err e := by
  intro paths
  induction paths with
  | nil => intro acc es e h; simp [fileLoop] at h
  | cons p rest ih =>
    intro acc es e h
    rw [fileLoop_cons] at h
    cases hp : parseFile lib p with
    | panic => rw [hp] at h; cases h
    | err e0 =>
      rw [hp] at h
      simp only [Option.some.injEq, Prod.mk.injEq] at h
      obtain ⟨_, he⟩ := h
      cases he
      exact ⟨[], p, rest, acc, rfl, rfl, hp⟩
    | ok es2 =>
      rw [hp] at h
      obtain ⟨pre, path, post, acc', hpaths, hpre, hfile⟩ := ih _ es e h
      refine ⟨p :: pre, path, post, acc', by rw [hpaths]; rfl, ?_, hfile⟩
      rw [fileLoop_cons, hp]
      exact hpre

theorem fileLoop_err_of_split (lib : Lib F X) (pre post : List GoString) (path : GoString)
    (acc : List (Employee F)) (e : GoString)
    (hpre : fileLoop lib pre [] = some (acc, none)) (hfile : parseFile lib path = .err e) :
    fileLoop lib (pre ++ path :: post) [] = some ([], some e) := by
  rw [fileLoop_append, hpre]
  simp only []
  rw [fileLoop_cons, hfile]

/-- C16: when Parse fails, its error is the first one in the order of the files and of the
rows. The list splits at a file k such that Parse succeeds on the files before it, and the
error is either the open error of file k, or the error of a data row of file k, unchanged,
whose earlier data rows all extract; the files after k do not matter, and neither do the rows
after that row, in any file system with the same coercion. -/
theorem Parse_first_error (lib : Lib F X) (paths : List GoString) (es : List (Employee F))
    (e : GoString) (h : Parse lib paths = some (es, some e)) :
    ∃ pre path post doc, paths = pre ++ path :: post
      ∧ getFileDocumentation path = some doc
      ∧ (∃ acc, Parse lib pre = some (acc, none))
      ∧ ((∃ err, lib.OpenFile path = .error err
          ∧ e = str "error opening document " ++ doc ++ str " for parse: " ++ lib.quote err)
        ∨ (∃ file before row after es1, lib.OpenFile path = .ok file
          ∧ dataRows (lib.GetRows file sheetName) = before ++ row :: after
          ∧ List.Forall₂ (fun r employee => parseRow lib r doc = .ok employee) before es1
          ∧ parseRow lib row doc = .err e
          ∧ ∀ (X' : Type) (lib' : Lib F X') (file' : X') (after' : List (List GoString))
              (post' : List GoString),
              lib'.ParseFloat = lib.ParseFloat → lib'.quote = lib.quote →
              (∃ acc', Parse lib' pre = some (acc', none)) →
              lib'.OpenFile path = .ok file' →
              dataRows (lib'.GetRows file' sheetName) = before ++ row :: after' →
              Parse lib' (pre ++ path :: post') = some ([], some e)))
      ∧ (∀ post', Parse lib (pre ++ path :: post') = some ([], some e)) := by
  obtain ⟨pre, path, post, acc, hpaths, hpre, hfile⟩ := fileLoop_err_split lib paths [] es e h
  have hfile' := hfile
  simp only [parseFile] at hfile'
  cases hdoc : getFileDocumentation path with
  | none => rw [hdoc] at hfile'; cases hfile'
  | some doc =>
    rw [hdoc] at hfile'
    simp only [] at hfile'
    refine ⟨pre, path, post, doc, hpaths, hdoc, ⟨acc, hpre⟩, ?_,
      fun post' => fileLoop_err_of_split lib pre post' path acc e hpre hfile⟩
    cases hopen : lib.OpenFile path with
    | error err =>
      rw [hopen] at hfile'
      simp only [Res.err.injEq] at hfile'
      exact Or.inl ⟨err, rfl, hfile'.symm⟩
    | ok file =>
      rw [hopen] at hfile'
      simp only [] at hfile'
      obtain ⟨before, row, after, es1, hrows, hf, herr⟩ :=
        extractRows_err_split lib doc _ [] e hfile'
      refine Or.inr ⟨file, before, row, after, es1, rfl, hrows, hf, herr, ?_⟩
      intro X' lib' file' after' post' hpf hq hpre' hopen' hrows'
      obtain ⟨acc', hacc'⟩ := hpre'
      have hf' : List.Forall₂ (fun r employee => parseRow lib' r doc = .ok employee)
          before es1 := by
        refine List.Forall₂.imp ?_ hf
        intro r employee hr
        rw [parseRow_congr lib lib' hpf hq]
        exact hr
      have herr' : parseRow lib' row doc = .err e := by
        rw [parseRow_congr lib lib' hpf hq]
        exact herr
      have hfile2 : parseFile lib' path = .err e := by
        simp only [parseFile, hdoc, hopen', hrows']
        exact extractRows_err_of_split lib' doc before after' row es1 e hf' herr'
      exact fileLoop_err_of_split lib' pre post' path acc' e hacc' hfile2

/-- The files `pathA`, `pathBad`, `pathB`: the error is that of the second data row of
`pathBad`, whatever follows `pathBad`. -/
theorem Parse_first_error_witness :
    Parse sampleLib [pathA, pathBad, pathB] = some ([], some errorBad)
    ∧ ∃ pre path post, [pathA, pathBad, pathB] = pre ++ path :: post
      ∧ (∃ acc, Parse sampleLib pre = some (acc, none))
      ∧ ∀ post', Parse sampleLib (pre ++ path :: post') = some ([], some errorBad) := by
  obtain ⟨pre, path, post, doc, hpaths, _, hpre, _, hpost⟩ :=
    Parse_first_error sampleLib [pathA, pathBad, pathB] [] errorBad (by decide)
  exact ⟨by decide, pre, path, post, hpaths, hpre, hpost⟩

/-! ## Files that cannot be opened and sheets that cannot be read -/

/-- C17: when the files before it were parsed successfully and a file cannot be opened, Parse
returns the open error and no record, and the text of the error contains the token of that
file; and on a list of files with names of at least 13 bytes and data rows of at least 15
cells, a file that cannot be opened, anywhere in the list, makes Parse return an error and no
record. -/
theorem Parse_open_error (lib : Lib F X) (paths pre post : List GoString)
    (path doc err : GoString) (acc : List (Employee F)) :
    (Parse lib pre = some (acc, none) → getFileDocumentation path = some doc →
      lib.OpenFile path = .error err →
      Parse lib (pre ++ path :: post)
          = some ([], some (str "error opening document " ++ doc ++ str " for parse: "
              ++ lib.quote err))
        ∧ ∃ a b, str "error opening document " ++ doc ++ str " for parse: " ++ lib.quote err
            = a ++ doc ++ b)
    ∧ ((∀ p ∈ paths, 13 ≤ p.length) →
      (∀ p ∈ paths, ∀ f, lib.OpenFile p = .ok f →
        ∀ r ∈ dataRows (lib.GetRows f sheetName), 15 ≤ r.length) →
      (∃ p ∈ paths, ∃ err', lib.OpenFile p = .error err') →
      ∃ e, Parse lib paths = some ([], some e)) := by
  constructor
  · intro hpre hdoc hopen
    have hfile : parseFile lib path = .err (str "error opening document " ++ doc
        ++ str " for parse: " ++ lib.quote err) := by
      simp only [parseFile, hdoc, hopen]
    exact ⟨fileLoop_err_of_split lib pre post path acc _ hpre hfile,
      str "error opening document ", str " for parse: " ++ lib.quote err,
      by simp only [List.append_assoc]⟩
  · intro hnames hcells hbad
    cases hP : Parse lib paths with
    | none => exact absurd hP (fileLoop_ne_none lib paths [] hnames hcells)
    | some r =>
      obtain ⟨es, oe⟩ := r
      cases oe with
      | some e' =>
        have hnil : es = [] := fileLoop_err_nil lib paths [] es e' hP
        subst hnil
        exact ⟨e', rfl⟩
      | none =>
        exfalso
        obtain ⟨p, hp, err', hopen⟩ := hbad
        obtain ⟨es', hes'⟩ := fileLoop_ok_parseFile lib paths [] es hP p hp
        simp only [parseFile] at hes'
        cases hdoc : getFileDocumentation p with
        | none => rw [hdoc] at hes'; cases hes'
        | some d =>
          rw [hdoc] at hes'
          simp only [hopen] at hes'
          cases hes'

/-- The file `pathMissing`, which the table of files does not have, after `pathA`. -/
theorem Parse_open_error_witness :
    Parse edgeLib [pathA] = some (employeesA, none)
    ∧ edgeLib.OpenFile pathMissing = .error (str "open: no such file or directory")
    ∧ Parse edgeLib ([pathA] ++ pathMissing :: [pathB])
        = some ([], some (str "error opening document "
            ++ str "remuneracao-de-todos-os-servidores-atuvos" ++ str " for parse: "
            ++ edgeLib.quote (str "open: no such file or directory")))
    ∧ (∃ e, Parse edgeLib [pathA, pathB, pathMissing] = some ([], some e)) := by
  have h := Parse_open_error edgeLib [pathA, pathB, pathMissing] [pathA] [pathB] pathMissing
    (str "remuneracao-de-todos-os-servidores-atuvos") (str "open: no such file or directory")
    employeesA
  refine ⟨by decide, rfl, (h.1 (by decide) (by decide) rfl).1, h.2 (by decide) ?_ ?_⟩
  · intro p hp f hf
    simp only [List.mem_cons, List.mem_singleton, List.not_mem_nil, or_false] at hp
    rcases hp with rfl | rfl | rfl
    · have hA : edgeLib.OpenFile pathA = .ok (oneSheet rowsA) := rfl
      rw [hA] at hf
      cases hf
      decide
    · have hB : edgeLib.OpenFile pathB = .ok (oneSheet rowsB) := rfl
      rw [hB] at hf
      cases hf
      decide
    · have hM : edgeLib.OpenFile pathMissing
          = .error (str "open: no such file or directory") := rfl
      rw [hM] at hf
      cases hf
  · exact ⟨pathMissing, by decide, str "open: no such file or directory", rfl⟩

/-- C18 as stated fails: the workbook of `pathNoSheet` opens and has no sheet named Sheet;
Parse does not fail on it, it takes the file as one with no rows and goes on to `pathA`,
whose three employees it returns. -/
theorem Parse_missing_sheet_continues :
    edgeLib.OpenFile pathNoSheet = .ok [(str "Plan1", rowsA)]
    ∧ edgeLib.GetRows [(str "Plan1", rowsA)] sheetName = []
    ∧ Parse edgeLib [pathNoSheet] = some ([], none)
    ∧ Parse edgeLib [pathNoSheet, pathA] = some (employeesA, none)
    ∧ ¬ (∃ e, Parse edgeLib [pathNoSheet, pathA] = some ([], some e)) := by
  refine ⟨rfl, by decide, by decide, by decide, ?_⟩
  rintro ⟨e, he⟩
  have h : Parse edgeLib [pathNoSheet, pathA] = some (employeesA, none) := by decide
  rw [h] at he
  have hnone := (Prod.mk.inj (Option.some.inj he)).2
  cases hnone

/-- C18, amended: Parse has no error for a sheet that cannot be read. Once a file with a name
of at least 13 bytes has opened, the rows that GetRows gives for the sheet Sheet are processed:
the only error of that file is the parse error of one of its data rows, and when GetRows gives
no rows the file adds no record and the run goes on as if the file were not in the list. -/
theorem Parse_sheet_rows_only (lib : Lib F X) (pre post : List GoString) (path : GoString)
    (file : X) (hname : 13 ≤ path.length) (hopen : lib.OpenFile path = .ok file) :
    (lib.GetRows file sheetName = [] →
      Parse lib [path] = some ([], none)
        ∧ Parse lib (pre ++ path :: post) = Parse lib (pre ++ post))
    ∧ (∀ es e, Parse lib [path] = some (es, some e) →
      ∃ row ∈ dataRows (lib.GetRows file sheetName),
        parseRow lib row (path.take (path.length - 13)) = .err e) := by
  constructor
  · intro hrows
    have hfile : parseFile lib path = .ok [] := by
      simp only [parseFile, getFileDocumentation_of_le path hname, hopen, hrows]
      rfl
    constructor
    · rw [Parse, fileLoop_cons, hfile]
      rfl
    · rw [Parse, Parse, fileLoop_append, fileLoop_append]
      cases fileLoop lib pre [] with
      | none => rfl
      | some r =>
        obtain ⟨es, oe⟩ := r
        cases oe with
        | some e => rfl
        | none =>
          simp only []
          rw [fileLoop_cons, hfile]
          simp only [List.append_nil]
  · intro es e h
    rw [Parse, fileLoop_cons] at h
    cases hp : parseFile lib path with
    | panic => rw [hp] at h; cases h
    | ok es2 => rw [hp] at h; simp [fileLoop] at h
    | err e0 =>
      rw [hp] at h
      simp only [Option.some.injEq, Prod.mk.injEq, List.nil_eq] at h
      obtain ⟨_, he⟩ := h
      cases he
      simp only [parseFile, getFileDocumentation_of_le path hname, hopen] at hp
      obtain ⟨before, row, after, es1, hrows, _, herr⟩ :=
        extractRows_err_split lib _ _ [] _ hp
      exact ⟨row, by rw [hrows]; simp, herr⟩

/-- The file `pathNoSheet` between `pathA` and `pathB`, and the file `pathBad` alone. -/
theorem Parse_sheet_rows_only_witness :
    13 ≤ pathNoSheet.length
    ∧ edgeLib.OpenFile pathNoSheet = .ok [(str "Plan1", rowsA)]
    ∧ Parse edgeLib [pathNoSheet] = some ([], none)
    ∧ Parse edgeLib ([pathA] ++ pathNoSheet :: [pathB]) = Parse edgeLib ([pathA] ++ [pathB])
    ∧ (∃ row ∈ dataRows (edgeLib.GetRows (oneSheet rowsBad) sheetName),
        parseRow edgeLib row (pathBad.take (pathBad.length - 13)) = .err errorBad) := by
  have h := Parse_sheet_rows_only edgeLib [pathA] [pathB] pathNoSheet [(str "Plan1", rowsA)]
    (by decide) rfl
  have h2 := Parse_sheet_rows_only edgeLib [] [] pathBad (oneSheet rowsBad) (by decide) rfl
  exact ⟨by decide, rfl, (h.1 (by decide)).1, (h.1 (by decide)).2,
    h2.2 [] errorBad (by decide)⟩

/-! ## Index safety -/

theorem parseRow_panic_of_short (lib : Lib F X) (row : List GoString) (doc : GoString)
    (h : row.length < 15) : parseRow lib row doc = .panic := by
  have h14 : row[totalDiscountIndex]? = none := by
    apply List.getElem?_eq_none
    simp only [totalDiscountIndex]
    omega
  simp only [parseRow, getDiscounts, parseCell, h14]

/-- C20: on a list of files with names of at least 13 bytes where every data row of every file
that opens has at least 15 cells, Parse indexes no row and no name out of range: it returns a
sequence of records or an error with no record. The extraction of a row goes out of range
exactly when the row has fewer than 15 cells, and it then panics and gives no parse error. -/
theorem Parse_index_safe (lib : Lib F X) (paths : List GoString)
    (hnames : ∀ p ∈ paths, 13 ≤ p.length)
    (hcells : ∀ p ∈ paths, ∀ f, lib.OpenFile p = .ok f →
      ∀ r ∈ dataRows (lib.GetRows f sheetName), 15 ≤ r.length) :
    ((∃ es, Parse lib paths = some (es, none)) ∨ (∃ e, Parse lib paths = some ([], some e)))
    ∧ (∀ (row : List GoString) (doc : GoString),
        parseRow lib row doc = .panic ↔ row.length < 15)
    ∧ (∀ (row : List GoString) (doc e : GoString),
        row.length < 15 → parseRow lib row doc ≠ .err e)
    ∧ (∀ p ∈ paths, ∃ doc, getFileDocumentation p = some doc) := by
  refine ⟨?_, ?_, ?_, ?_⟩
  · cases hP : Parse lib paths with
    | none => exact absurd hP (fileLoop_ne_none lib paths [] hnames hcells)
    | some r =>
      obtain ⟨es, oe⟩ := r
      cases oe with
      | none => exact Or.inl ⟨es, rfl⟩
      | some e =>
        have hnil : es = [] := fileLoop_err_nil lib paths [] es e hP
        subst hnil
        exact Or.inr ⟨e, rfl⟩
  · intro row doc
    constructor
    · intro hp
      by_contra hn
      exact parseRow_ne_panic lib row doc (by omega) hp
    · exact parseRow_panic_of_short lib row doc
  · intro row doc e hlt hp
    rw [parseRow_panic_of_short lib row doc hlt] at hp
    cases hp
  · intro p hp
    exact ⟨_, getFileDocumentation_of_le p (hnames p hp)⟩

/-- The three sample files satisfy the bounds; a data row of one cell panics. -/
theorem Parse_index_safe_witness :
    (∀ p ∈ [pathA, pathBad, pathB], 13 ≤ p.length)
    ∧ ((∃ es, Parse sampleLib [pathA, pathBad, pathB] = some (es, none))
      ∨ (∃ e, Parse sampleLib [pathA, pathBad, pathB] = some ([], some e)))
    ∧ parseRow sampleLib [str "Total"] (str "remuneracao-de-todos-os-membros-ativos") = .panic := by
  have h := Parse_index_safe sampleLib [pathA, pathBad, pathB] (by decide) (by
    intro p hp f hf
    simp only [List.mem_cons, List.mem_singleton, List.not_mem_nil, or_false] at hp
    rcases hp with rfl | rfl | rfl
    · have hA : sampleLib.OpenFile pathA = .ok (oneSheet rowsA) := rfl
      rw [hA] at hf
      cases hf
      decide
    · have hA : sampleLib.OpenFile pathBad = .ok (oneSheet rowsBad) := rfl
      rw [hA] at hf
      cases hf
      decide
    · have hA : sampleLib.OpenFile pathB = .ok (oneSheet rowsB) := rfl
      rw [hA] at hf
      cases hf
      decide)
  exact ⟨by decide, h.1, (h.2.1 [str "Total"] _).2 (by decide)⟩

end Mppe
